import Mathlib

/-!
Verification of the wabrum-video-bot generation-and-approval pipeline.

The development shallowly embeds the Python source:
  - `Config`   : constants from src/config.py
  - `Tm`       : timestamps; the database stores timestamps as strings
                 (SQLite CURRENT_TIMESTAMP format on insert, Python
                 isoformat when code supplies a value), and SQLite compares
                 them as TEXT with the BINARY collation, which on these
                 ASCII strings is bytewise lexicographic order
  - `Models`   : src/database/models.py over an explicit DB state
  - `Stylist`  : src/services/claude_stylist.py (the external call is a
                 parameter: API error, malformed output, or parsed entries)
  - `Kling`    : src/services/klingai.py (HTTP responses are a parameter)
  - `Sched`    : src/services/scheduler.py daily_generation_job
  - `Handlers` : src/bot/handlers.py cmd_generate and callback handlers

Network sends (Telegram notifications, message edits) are modeled as an
event trace; Python float scores are modeled as integers, since every
claim about scores concerns only their ordering.
-/

namespace Config

def PRODUCTS_TO_SELECT_DAILY : Nat := 5
def KLINGAI_POLLING_INTERVAL : Nat := 30
def KLINGAI_TASK_TIMEOUT : Nat := 600
def DAILY_GENERATION_HOUR_UTC : Nat := 4

end Config

namespace Tm

/-- A wall-clock instant in UTC, as the fields Python datetime exposes
(microseconds are always zeroed by the code before formatting). -/
structure UtcTime where
  year : Nat
  month : Nat
  day : Nat
  hour : Nat
  minute : Nat
  second : Nat
deriving DecidableEq

/-- Zero-pad to two digits, as both SQLite and Python isoformat do. -/
def pad2 (n : Nat) : String :=
  if n < 10 then "0" ++ toString n else toString n

/-- Zero-pad the year to four digits. -/
def pad4 (n : Nat) : String :=
  if n < 10 then "000" ++ toString n
  else if n < 100 then "00" ++ toString n
  else if n < 1000 then "0" ++ toString n
  else toString n

/-- The string SQLite CURRENT_TIMESTAMP stores: YYYY-MM-DD HH:MM:SS. -/
def sqliteNow (t : UtcTime) : String :=
  pad4 t.year ++ "-" ++ pad2 t.month ++ "-" ++ pad2 t.day ++ " " ++
    pad2 t.hour ++ ":" ++ pad2 t.minute ++ ":" ++ pad2 t.second

/-- The string Python datetime.isoformat() produces for an aware UTC
datetime with zero microseconds: YYYY-MM-DDTHH:MM:SS+00:00. -/
def pyIsoUtc (t : UtcTime) : String :=
  pad4 t.year ++ "-" ++ pad2 t.month ++ "-" ++ pad2 t.day ++ "T" ++
    pad2 t.hour ++ ":" ++ pad2 t.minute ++ ":" ++ pad2 t.second ++ "+00:00"

/-- datetime.replace(hour=0, minute=0, second=0, microsecond=0). -/
def dayStart (t : UtcTime) : UtcTime :=
  { t with hour := 0, minute := 0, second := 0 }

/-- Bytewise lexicographic strict order on character lists; on the ASCII
timestamp strings this is exactly the SQLite BINARY collation. -/
def chLtB : List Char → List Char → Bool
  | [], [] => false
  | [], _ :: _ => true
  | _ :: _, [] => false
  | a :: as, b :: bs =>
      if a.toNat < b.toNat then true
      else if b.toNat < a.toNat then false
      else chLtB as bs

/-- SQLite TEXT comparison a >= b under the BINARY collation. -/
def sqliteTextGe (a b : String) : Bool :=
  ! chLtB a.toList b.toList

end Tm

namespace Models

open Tm Config

/-- A row of the products table (src/database/db.py). -/
structure ProductRow where
  id : Nat
  cscart_id : String
  name : String
  category : Option String
  image_url : Option String
  price : Option Int
  vendor : Option String
  ai_score : Int
deriving DecidableEq

/-- A row of the video_tasks table. -/
structure TaskRow where
  id : Nat
  product_id : Nat
  klingai_task_id : String
  prompt : String
  prompt_type : String
  status : String
  video_url : Option String
  telegram_message_id : Option Nat
  created_at : String
  updated_at : String
deriving DecidableEq

/-- A row of the generation_sessions table. -/
structure SessionRow where
  id : Nat
  products_fetched : Nat
  products_selected : Nat
  videos_generated : Nat
  status : String
deriving DecidableEq

/-- The SQLite database state; the next_* counters model AUTOINCREMENT.
New rows are held at the head of each list. -/
structure DB where
  products : List ProductRow
  video_tasks : List TaskRow
  sessions : List SessionRow
  next_product_id : Nat
  next_task_id : Nat
  next_session_id : Nat
deriving DecidableEq

def emptyDB : DB :=
  { products := [], video_tasks := [], sessions := [],
    next_product_id := 1, next_task_id := 1, next_session_id := 1 }

/-- models.upsert_product: INSERT ... ON CONFLICT(cscart_id) DO UPDATE;
returns the internal id of the row. -/
def upsert_product (db : DB) (cscart_id name : String)
    (category image_url : Option String) (price : Option Int)
    (vendor : Option String) (ai_score : Int) : DB × Nat :=
  match db.products.find? (fun p => p.cscart_id == cscart_id) with
  | some existing =>
      ({ db with products := db.products.map (fun p =>
            if p.cscart_id == cscart_id then
              { p with name := name, category := category,
                       image_url := image_url, price := price,
                       vendor := vendor, ai_score := ai_score }
            else p) },
       existing.id)
  | none =>
      ({ db with
          products :=
            { id := db.next_product_id, cscart_id := cscart_id, name := name,
              category := category, image_url := image_url, price := price,
              vendor := vendor, ai_score := ai_score } :: db.products,
          next_product_id := db.next_product_id + 1 },
       db.next_product_id)

/-- models.get_product_by_cscart_id. -/
def get_product_by_cscart_id (db : DB) (cscart_id : String) :
    Option ProductRow :=
  db.products.find? (fun p => p.cscart_id == cscart_id)

/-- models.product_has_video_today: COUNT(*) > 0 over video_tasks joined
to products on product_id, filtered by cscart_id and
created_at >= today_start.isoformat(), where today_start is the current
UTC instant with hour, minute, second and microsecond zeroed.  The
created_at column holds SQLite CURRENT_TIMESTAMP strings and the bound
parameter is a Python isoformat string; SQLite compares the two as TEXT. -/
def product_has_video_today (db : DB) (cscart_id : String)
    (now : UtcTime) : Bool :=
  let today_start := pyIsoUtc (dayStart now)
  db.video_tasks.any (fun vt =>
    db.products.any (fun p =>
      p.id == vt.product_id && p.cscart_id == cscart_id) &&
    sqliteTextGe vt.created_at today_start)

/-- models.create_video_task: INSERT with status submitted; created_at
and updated_at default to SQLite CURRENT_TIMESTAMP at the insert instant. -/
def create_video_task (db : DB) (product_id : Nat)
    (klingai_task_id prompt prompt_type : String) (now : UtcTime) :
    DB × Nat :=
  ({ db with
      video_tasks :=
        { id := db.next_task_id, product_id := product_id,
          klingai_task_id := klingai_task_id, prompt := prompt,
          prompt_type := prompt_type, status := "submitted",
          video_url := none, telegram_message_id := none,
          created_at := sqliteNow now, updated_at := sqliteNow now }
        :: db.video_tasks,
      next_task_id := db.next_task_id + 1 },
   db.next_task_id)

/-- The keyword arguments the code passes to models.update_video_task. -/
structure TaskUpdate where
  status : Option String := none
  video_url : Option String := none
  telegram_message_id : Option Nat := none
deriving DecidableEq

/-- Applying an update to a row; updated_at is always set to the Python
isoformat of the current UTC instant. -/
def applyTaskUpdate (t : TaskRow) (u : TaskUpdate) (now : UtcTime) :
    TaskRow :=
  { t with
      status := u.status.getD t.status,
      video_url := match u.video_url with
        | some v => some v
        | none => t.video_url,
      telegram_message_id := match u.telegram_message_id with
        | some m => some m
        | none => t.telegram_message_id,
      updated_at := pyIsoUtc now }

/-- models.update_video_task: UPDATE the named fields WHERE id = task_id. -/
def update_video_task (db : DB) (task_id : Nat) (u : TaskUpdate)
    (now : UtcTime) : DB :=
  { db with
      video_tasks := db.video_tasks.map (fun t =>
        if t.id == task_id then applyTaskUpdate t u now else t) }

/-- models.get_video_task. -/
def get_video_task (db : DB) (task_id : Nat) : Option TaskRow :=
  db.video_tasks.find? (fun t => t.id == task_id)

/-- models.create_session: INSERT with status running. -/
def create_session (db : DB) : DB × Nat :=
  ({ db with
      sessions :=
        { id := db.next_session_id, products_fetched := 0,
          products_selected := 0, videos_generated := 0,
          status := "running" } :: db.sessions,
      next_session_id := db.next_session_id + 1 },
   db.next_session_id)

/-- The keyword arguments the code passes to models.update_session. -/
structure SessionUpdate where
  products_fetched : Option Nat := none
  products_selected : Option Nat := none
  videos_generated : Option Nat := none
  status : Option String := none
deriving DecidableEq

/-- Applying the named fields of an update to a session row. -/
def applySessionUpdate (s : SessionRow) (u : SessionUpdate) : SessionRow :=
  { s with
      products_fetched := u.products_fetched.getD s.products_fetched,
      products_selected := u.products_selected.getD s.products_selected,
      videos_generated := u.videos_generated.getD s.videos_generated,
      status := u.status.getD s.status }

/-- models.update_session: UPDATE the named fields WHERE id = session_id. -/
def update_session (db : DB) (session_id : Nat) (u : SessionUpdate) : DB :=
  { db with
      sessions := db.sessions.map (fun s =>
        if s.id == session_id then applySessionUpdate s u else s) }

/-- Lookup of a session row by id. -/
def get_session (db : DB) (session_id : Nat) : Option SessionRow :=
  db.sessions.find? (fun s => s.id == session_id)

end Models

namespace Gateway

/-- A product dict as the CS-Cart client returns it (src/services/cscart.py):
cscart_id, name, category, image_url, price, vendor. -/
structure FetchedProduct where
  cscart_id : String
  name : String
  category : Option String
  image_url : Option String
  price : Option Int
  vendor : Option String
deriving DecidableEq

end Gateway

namespace Stylist

open Gateway Config

/-- One entry of the ranked list the Curator returns:
dict with cscart_id, score, reasoning, selected, each read with .get. -/
structure ScoredEntry where
  cscart_id : String
  score : Option Int
  reasoning : Option String
  selected : Option Bool
deriving DecidableEq

/-- s.get("score", 0). -/
def entryScore (s : ScoredEntry) : Int := s.score.getD 0

/-- s.get("selected", False). -/
def isSelected (s : ScoredEntry) : Bool := s.selected.getD false

/-- The outcome of the Claude scoring call, as the code distinguishes it:
an anthropic.APIError that is re-raised, a json.JSONDecodeError on the
response text, or a parsed ranked_products list. -/
inductive CuratorResp where
  | apiError (e : String)
  | malformed
  | parsed (entries : List ScoredEntry)
deriving DecidableEq

/-- The fallback list built on a parse failure: every product with score
5.0 and reasoning "Fallback", the first PRODUCTS_TO_SELECT_DAILY marked
selected. -/
def fallbackScored (products : List FetchedProduct) : List ScoredEntry :=
  products.enum.map (fun ip =>
    { cscart_id := ip.2.cscart_id, score := some 5,
      reasoning := some "Fallback",
      selected := some (decide (ip.1 < PRODUCTS_TO_SELECT_DAILY)) })

/-- claude_stylist.select_and_score_products: returns the parsed ranking;
on JSONDecodeError returns the fallback list; an APIError propagates. -/
def select_and_score_products (products : List FetchedProduct)
    (resp : CuratorResp) : Except String (List ScoredEntry) :=
  match resp with
  | .apiError e => .error e
  | .malformed => .ok (fallbackScored products)
  | .parsed entries => .ok entries

/-- One prompt dict from claude_stylist.generate_prompts:
read with .get("type", "unknown") and .get("prompt", ""). -/
structure PromptData where
  ptype : Option String
  prompt : Option String
deriving DecidableEq

end Stylist

namespace Pipeline

open Gateway Stylist Config

/-- The dedup loop of scheduler.daily_generation_job and
handlers.cmd_generate: walk new_products + popular_products keeping the
first occurrence of each cscart_id (seen set threaded through). -/
def dedupAux : List FetchedProduct → List String → List FetchedProduct
  | [], _ => []
  | p :: rest, seen =>
      if seen.contains p.cscart_id then dedupAux rest seen
      else p :: dedupAux rest (p.cscart_id :: seen)

/-- The deduplicated working set, starting from an empty seen set. -/
def dedupProducts (l : List FetchedProduct) : List FetchedProduct :=
  dedupAux l []

/-- Stable insertion into a descending-sorted list: the new element, which
comes later in the original order, goes after every element with a
strictly greater key and after earlier elements with an equal key. -/
def insertDesc {α : Type} (key : α → Int) (e : α) : List α → List α
  | [] => [e]
  | y :: ys => if key e < key y then y :: insertDesc key e ys
               else e :: y :: ys

/-- Stable sort by key, descending: the embedding of Python
list.sort(key=score, reverse=True), which is a stable descending sort. -/
def sortDesc {α : Type} (key : α → Int) : List α → List α
  | [] => []
  | x :: xs => insertDesc key x (sortDesc key xs)

/-- s["selected"] = True. -/
def markSelected (s : ScoredEntry) : ScoredEntry :=
  { s with selected := some true }

/-- The selection step shared by scheduler and handler: entries with a
truthy selected flag; if there are none, sort scored by score descending
in place, take the first PRODUCTS_TO_SELECT_DAILY and mark them selected
(the handler writes the same constant as the literal 5).  Returns the
scored list after the in-place sort and mutation, and the selection. -/
def applySelection (scored : List ScoredEntry) :
    List ScoredEntry × List ScoredEntry :=
  let sel0 := scored.filter isSelected
  if sel0.isEmpty then
    let sorted := sortDesc entryScore scored
    let sel := (sorted.take PRODUCTS_TO_SELECT_DAILY).map markSelected
    (sel ++ sorted.drop PRODUCTS_TO_SELECT_DAILY, sel)
  else (scored, sel0)

end Pipeline

namespace Kling

open Config

/-- One HTTP response of the KlingAI submit endpoint, as
klingai.create_video_task distinguishes them: 429, 5xx, an
aiohttp.ClientError (which also covers other 4xx after
raise_for_status), or a JSON body with an API code. -/
inductive SubmitResp where
  | rateLimited
  | serverError
  | netError (e : String)
  | httpOk (code : Int) (message : String) (task_id : String)
deriving DecidableEq

/-- The observable outcome of klingai.create_video_task together with the
trace of back-off sleeps it performed: the returned task id, the
ValueError raised on a non-zero API code (propagated immediately), the
re-raised ClientError on the last attempt, or the RuntimeError after all
retries. -/
inductive CvtResult where
  | ok (task_id : String) (waits : List Nat)
  | rejected (code : Int) (message : String) (waits : List Nat)
  | netFail (e : String) (waits : List Nat)
  | exhausted (waits : List Nat)
deriving DecidableEq

def max_retries : Nat := 3

/-- The retry loop of klingai.create_video_task: fuel is the number of
attempts left, attempt the current index.  429 sleeps (2 ** attempt) * 5
and retries; 5xx sleeps 60 and retries; a ClientError re-raises on the
last attempt and otherwise sleeps 5 and retries; a JSON body returns the
task id if code is 0 and raises ValueError otherwise. -/
def cvtAux (resp : Nat → SubmitResp) : Nat → Nat → List Nat → CvtResult
  | _, 0, waits => .exhausted waits
  | attempt, fuel + 1, waits =>
      match resp attempt with
      | .rateLimited =>
          cvtAux resp (attempt + 1) fuel (waits ++ [2 ^ attempt * 5])
      | .serverError => cvtAux resp (attempt + 1) fuel (waits ++ [60])
      | .netError e =>
          if fuel = 0 then .netFail e waits
          else cvtAux resp (attempt + 1) fuel (waits ++ [5])
      | .httpOk c m tid =>
          if c = 0 then .ok tid waits else .rejected c m waits

/-- klingai.create_video_task for a given response sequence. -/
def create_video_task (resp : Nat → SubmitResp) : CvtResult :=
  cvtAux resp 0 max_retries []

/-- One result of klingai.get_task_status, keyed by the status string it
reports: succeed, failed (terminal remote failure or non-zero API code),
error (an aiohttp.ClientError, transient) or any other status string. -/
inductive PollStatus where
  | succeed (video_url : String)
  | failed (error : String)
  | error (error : String)
  | other (status : String)
deriving DecidableEq

/-- What klingai.poll_task_until_done returns. -/
inductive PollOutcome where
  | succeed (video_url : String)
  | failed (error : String)
deriving DecidableEq

def isTerminal : PollStatus → Bool
  | .succeed _ => true
  | .failed _ => true
  | _ => false

/-- The polling loop: while elapsed < timeout, query the status (attempt
k); succeed and failed return; anything else sleeps the polling interval
and retries; when the budget is gone the result is failed with error
Timeout. -/
def pollAux (f : Nat → PollStatus) (timeout elapsed k : Nat) : PollOutcome :=
  if _h : elapsed < timeout then
    match f k with
    | .succeed u => .succeed u
    | .failed e => .failed e
    | .error _ => pollAux f timeout (elapsed + KLINGAI_POLLING_INTERVAL) (k + 1)
    | .other _ => pollAux f timeout (elapsed + KLINGAI_POLLING_INTERVAL) (k + 1)
  else .failed "Timeout"
termination_by timeout - elapsed
decreasing_by
  all_goals simp only [KLINGAI_POLLING_INTERVAL]; omega

/-- klingai.poll_task_until_done. -/
def poll_task_until_done (f : Nat → PollStatus) (timeout : Nat) :
    PollOutcome :=
  pollAux f timeout 0 0

end Kling

namespace Pipeline

open Gateway Stylist Tm Config

/-- The external world of one run: the two catalog fetches, the Curator
scoring response, the per-product prompt batches, the render submission
endpoint (keyed by image url and prompt) and the render status feed
(keyed by remote task id and poll attempt). -/
structure Env where
  new_products : List FetchedProduct
  popular_products : List FetchedProduct
  curator : CuratorResp
  prompts : String → List PromptData
  submit : Option String → String → Except String String
  poll : String → Nat → Kling.PollStatus

/-- The inner loop over one item's prompts: empty prompt text is skipped;
a submission error is logged and skipped; a successful submission
persists a RenderJob row with status submitted and collects its id. -/
def processPrompts (env : Env) (now : UtcTime) (product : FetchedProduct)
    (product_id : Nat) : Models.DB → List PromptData → Models.DB × List Nat
  | db, [] => (db, [])
  | db, pd :: rest =>
      if pd.prompt.getD "" = "" then
        processPrompts env now product product_id db rest
      else
        match env.submit product.image_url (pd.prompt.getD "") with
        | .error _ => processPrompts env now product product_id db rest
        | .ok klingai_task_id =>
            let r := Models.create_video_task db product_id klingai_task_id
              (pd.prompt.getD "") (pd.ptype.getD "unknown") now
            let r2 := processPrompts env now product product_id r.1 rest
            (r2.1, r.2 :: r2.2)

/-- One iteration of the fan-out loop over a selected entry: missing from
the product map, already generated today, or missing from the products
table each skip the item; otherwise its prompt batch is submitted. -/
def processItem (env : Env) (now : UtcTime)
    (all_products : List FetchedProduct) (db : Models.DB)
    (sel : ScoredEntry) : Models.DB × List Nat :=
  match all_products.find? (fun p => p.cscart_id == sel.cscart_id) with
  | none => (db, [])
  | some product =>
      if Models.product_has_video_today db sel.cscart_id now then (db, [])
      else
        match Models.get_product_by_cscart_id db sel.cscart_id with
        | none => (db, [])
        | some dbp =>
            processPrompts env now product dbp.id db (env.prompts sel.cscart_id)

/-- The fan-out loop over the selected entries, threading the database
and collecting the created task ids in creation order. -/
def fanOut (env : Env) (now : UtcTime)
    (all_products : List FetchedProduct) :
    Models.DB → List ScoredEntry → Models.DB × List Nat
  | db, [] => (db, [])
  | db, sel :: rest =>
      let r1 := processItem env now all_products db sel
      let r2 := fanOut env now all_products r1.1 rest
      (r2.1, r1.2 ++ r2.2)

/-- The persist-scores loop: upsert every scored entry found in the
product map with its returned score. -/
def persistScores (all_products : List FetchedProduct) :
    Models.DB → List ScoredEntry → Models.DB
  | db, [] => db
  | db, s :: rest =>
      match all_products.find? (fun p => p.cscart_id == s.cscart_id) with
      | none => persistScores all_products db rest
      | some p =>
          persistScores all_products
            (Models.upsert_product db s.cscart_id p.name p.category
              p.image_url p.price p.vendor (entryScore s)).1 rest

/-- Outward-visible actions of a run (Telegram sends and edits). -/
inductive Event where
  | started
  | noItems
  | runError (e : String)
  | submitted (n : Nat)
  | noTasks
  | videoApproval (task_id : Nat)
  | taskFailed (task_id : Nat)
  | done (completed total : Nat)
  | manualNoProducts
  | manualError (e : String)
  | manualNoTasks
deriving DecidableEq

/-- Result of the poll-to-completion phase. -/
structure PollOut where
  db : Models.DB
  events : List Event
  completed : Nat
deriving DecidableEq

/-- The poll-to-completion loop shared by the scheduler and the manual
background poller: for each created task id in creation order, look the
task up, skip it if missing or without a remote id, otherwise poll the
remote status to a terminal outcome, persist succeed with the video url
or failed, and hand succeeded renders to the approval surface. -/
def pollPhase (env : Env) (now : UtcTime) :
    Models.DB → List Nat → PollOut
  | db, [] => { db := db, events := [], completed := 0 }
  | db, tid :: rest =>
      match Models.get_video_task db tid with
      | none => pollPhase env now db rest
      | some task =>
          if task.klingai_task_id = "" then pollPhase env now db rest
          else
            match Kling.poll_task_until_done (env.poll task.klingai_task_id)
                Config.KLINGAI_TASK_TIMEOUT with
            | .succeed url =>
                let db2 := Models.update_video_task db tid
                  { status := some "succeed", video_url := some url } now
                let r := pollPhase env now db2 rest
                { db := r.db, events := .videoApproval tid :: r.events,
                  completed := r.completed + 1 }
            | .failed _ =>
                let db2 := Models.update_video_task db tid
                  { status := some "failed" } now
                let r := pollPhase env now db2 rest
                { db := r.db, events := .taskFailed tid :: r.events,
                  completed := r.completed }

/-- Final state and event trace of one invocation. -/
structure RunResult where
  db : Models.DB
  events : List Event
deriving DecidableEq

/-- Descending score with ties broken by the first component (the
original position): the order a stable descending sort realises on
position-tagged entries. -/
def scoreTieOrder {α : Type} (key : α → Int) (a b : Nat × α) : Prop :=
  key b.2 < key a.2 ∨ (key a.2 = key b.2 ∧ a.1 < b.1)

end Pipeline

namespace Sched

open Gateway Stylist Tm Pipeline

/-- scheduler.daily_generation_job: create the session row first, fetch
and deduplicate, record products_fetched, abort as failed on an empty
set, score (an outright Curator error is caught by the outer handler and
marks the run failed), select with fallback, persist scores, fan out,
record videos_generated, abort as failed when no task was created, else
poll to completion and mark the session completed. -/
def daily_generation_job (env : Env) (now : UtcTime) (db0 : Models.DB) :
    RunResult :=
  let r0 := Models.create_session db0
  let sid := r0.2
  let all_products := dedupProducts (env.new_products ++ env.popular_products)
  let db2 := Models.update_session r0.1 sid
    { products_fetched := some all_products.length }
  if all_products.isEmpty then
    { db := Models.update_session db2 sid { status := some "failed" },
      events := [.started, .noItems] }
  else
    match select_and_score_products all_products env.curator with
    | .error e =>
        { db := Models.update_session db2 sid { status := some "failed" },
          events := [.started, .runError e] }
    | .ok scored =>
        let selr := applySelection scored
        let db3 := Models.update_session db2 sid
          { products_selected := some selr.2.length }
        let db4 := persistScores all_products db3 selr.1
        let fr := fanOut env now all_products db4 selr.2
        let db6 := Models.update_session fr.1 sid
          { videos_generated := some fr.2.length }
        if fr.2.isEmpty then
          { db := Models.update_session db6 sid { status := some "failed" },
            events := [.started, .submitted fr.2.length, .noTasks] }
        else
          let pr := pollPhase env now db6 fr.2
          { db := Models.update_session pr.db sid
              { status := some "completed" },
            events := [.started, .submitted fr.2.length] ++ pr.events ++
              [.done pr.completed fr.2.length] }

end Sched

namespace Handlers

open Gateway Stylist Tm Pipeline

/-- handlers.cmd_generate: fetch and deduplicate, return with a warning
message when empty (no session row exists yet), score (a Curator error is
caught and reported, again before any session row exists), select with
fallback, then create the session row, record counts, persist scores,
fan out, and either mark the session failed when no task was created or
poll in the background and mark it completed. -/
def cmd_generate (env : Env) (now : UtcTime) (db0 : Models.DB) :
    RunResult :=
  let all_products := dedupProducts (env.new_products ++ env.popular_products)
  if all_products.isEmpty then
    { db := db0, events := [.manualNoProducts] }
  else
    match select_and_score_products all_products env.curator with
    | .error e => { db := db0, events := [.manualError e] }
    | .ok scored =>
        let selr := applySelection scored
        let r0 := Models.create_session db0
        let sid := r0.2
        let db2 := Models.update_session r0.1 sid
          { products_fetched := some all_products.length,
            products_selected := some selr.2.length }
        let db3 := persistScores all_products db2 selr.1
        let fr := fanOut env now all_products db3 selr.2
        let db5 := Models.update_session fr.1 sid
          { videos_generated := some fr.2.length }
        if fr.2.isEmpty then
          { db := Models.update_session db5 sid { status := some "failed" },
            events := [.manualNoTasks] }
        else
          let pr := pollPhase env now db5 fr.2
          { db := Models.update_session pr.db sid
              { videos_generated := some fr.2.length,
                status := some "completed" },
            events := pr.events ++ [.done pr.completed fr.2.length] }

/-- handlers, approve callback: set the task status to approved. -/
def handle_approve (db : Models.DB) (task_id : Nat) (now : Tm.UtcTime) :
    Models.DB :=
  Models.update_video_task db task_id { status := some "approved" } now

/-- handlers, reject callback: set the task status to rejected. -/
def handle_reject (db : Models.DB) (task_id : Nat) (now : Tm.UtcTime) :
    Models.DB :=
  Models.update_video_task db task_id { status := some "rejected" } now

/-- handlers, publish callback: set the task status to published. -/
def handle_publish (db : Models.DB) (task_id : Nat) (now : Tm.UtcTime) :
    Models.DB :=
  Models.update_video_task db task_id { status := some "published" } now

end Handlers

namespace Examples

open Tm Models Gateway Stylist Pipeline

def exCreated : UtcTime := ⟨2026, 10, 12, 6, 0, 0⟩

def exQuery : UtcTime := ⟨2026, 10, 12, 9, 0, 0⟩

def exDbProduct : DB :=
  (upsert_product emptyDB "p1" "Dress" none none none none 7).1

def exDbTask : DB :=
  (Models.create_video_task exDbProduct 1 "kling1" "a prompt" "detail"
    exCreated).1

def exDbFailedTask : DB :=
  update_video_task exDbTask 1 { status := some "failed" } exCreated

def exFailedRow : TaskRow :=
  { id := 1, product_id := 1, klingai_task_id := "kling1",
    prompt := "a prompt", prompt_type := "detail", status := "failed",
    video_url := none, telegram_message_id := none,
    created_at := "2026-10-12 06:00:00",
    updated_at := "2026-10-12T06:00:00+00:00" }

def fpA : FetchedProduct :=
  { cscart_id := "a", name := "A", category := none,
    image_url := some "ua", price := some 10, vendor := some "v" }

def fpB : FetchedProduct :=
  { cscart_id := "b", name := "B", category := none,
    image_url := some "ub", price := some 20, vendor := some "v" }

def fpB2 : FetchedProduct :=
  { cscart_id := "b", name := "B again", category := none,
    image_url := some "ub2", price := some 21, vendor := some "w" }

def fpC : FetchedProduct :=
  { cscart_id := "c", name := "C", category := none,
    image_url := some "uc", price := some 30, vendor := some "w" }

def exRecent : List FetchedProduct := [fpA, fpB]

def exPopular : List FetchedProduct := [fpB2, fpC]

def exScored : List ScoredEntry :=
  [ { cscart_id := "a", score := some 5, reasoning := none,
      selected := none },
    { cscart_id := "b", score := some 8, reasoning := none,
      selected := some false },
    { cscart_id := "c", score := some 5, reasoning := none,
      selected := none },
    { cscart_id := "d", score := none, reasoning := none, selected := none },
    { cscart_id := "e", score := some 7, reasoning := none,
      selected := none },
    { cscart_id := "f", score := some 9, reasoning := none,
      selected := none } ]

def exEnvApiErr : Env :=
  { new_products := exRecent, popular_products := exPopular,
    curator := .apiError "boom", prompts := fun _ => [],
    submit := fun _ _ => .error "Rejected",
    poll := fun _ _ => .other "processing" }

def exSubmittedRow : TaskRow :=
  { id := 1, product_id := 1, klingai_task_id := "kling1",
    prompt := "a prompt", prompt_type := "detail", status := "submitted",
    video_url := none, telegram_message_id := none,
    created_at := "2026-10-12 06:00:00",
    updated_at := "2026-10-12 06:00:00" }

def exEnvPoll : Env :=
  { new_products := exRecent, popular_products := exPopular,
    curator := .malformed, prompts := fun _ => [],
    submit := fun _ _ => .error "Rejected",
    poll := fun _ k => if k = 1 then .succeed "u" else .error "net" }

def exSelA : ScoredEntry :=
  { cscart_id := "a", score := some 7, reasoning := none,
    selected := some true }

def exSelC : ScoredEntry :=
  { cscart_id := "c", score := some 6, reasoning := none,
    selected := some true }

def exEnvReject : Env :=
  { new_products := exRecent, popular_products := exPopular,
    curator := .malformed,
    prompts := fun cid =>
      if cid = "a" then [{ ptype := some "detail", prompt := some "bad" }]
      else [{ ptype := some "lifestyle", prompt := some "good" }],
    submit := fun _ p =>
      if p = "bad" then .error "Rejected" else .ok "kt1",
    poll := fun _ _ => .succeed "u" }

def exEnvEmptyFetch : Env :=
  { new_products := [], popular_products := [], curator := .malformed,
    prompts := fun _ => [], submit := fun _ _ => .error "x",
    poll := fun _ _ => .other "processing" }

end Examples

namespace Models

open Tm

theorem applyTaskUpdate_id (t : TaskRow) (u : TaskUpdate) (now : UtcTime) :
    (applyTaskUpdate t u now).id = t.id := rfl

theorem get_update_video_task (db : DB) (tid tid' : Nat) (u : TaskUpdate)
    (now : UtcTime) :
    get_video_task (update_video_task db tid u now) tid' =
      (get_video_task db tid').map
        (fun t => if t.id == tid then applyTaskUpdate t u now else t) := by
  unfold get_video_task update_video_task
  simp only
  rw [List.find?_map]
  have hpred : ((fun t : TaskRow => t.id == tid') ∘ fun t =>
      if (t.id == tid) = true then applyTaskUpdate t u now else t) =
      fun t : TaskRow => t.id == tid' := by
    funext t
    by_cases h : (t.id == tid) = true <;>
      simp [Function.comp, h, applyTaskUpdate_id]
  rw [hpred]

end Models

namespace Pipeline

open Gateway

theorem dedupAux_sublist (l : List FetchedProduct) (seen : List String) :
    (dedupAux l seen).Sublist l := by
  induction l generalizing seen with
  | nil => simp [dedupAux]
  | cons p rest ih =>
      rw [dedupAux]
      split
      · exact (ih seen).trans (List.sublist_cons_self p rest)
      · exact (ih (p.cscart_id :: seen)).cons₂ p

theorem dedupAux_not_seen (l : List FetchedProduct) (seen : List String)
    (p : FetchedProduct) (hp : p ∈ dedupAux l seen) :
    seen.contains p.cscart_id = false := by
  induction l generalizing seen with
  | nil => simp [dedupAux] at hp
  | cons q rest ih =>
      rw [dedupAux] at hp
      split at hp
      · exact ih seen hp
      · rename_i hseen
        rcases List.mem_cons.mp hp with h | h
        · subst h
          simpa using hseen
        · have h2 := ih (q.cscart_id :: seen) h
          simp only [List.contains_cons, Bool.or_eq_false_iff] at h2
          exact h2.2

theorem dedupAux_nodup (l : List FetchedProduct) (seen : List String) :
    ((dedupAux l seen).map (fun p => p.cscart_id)).Nodup := by
  induction l generalizing seen with
  | nil => simp [dedupAux]
  | cons q rest ih =>
      rw [dedupAux]
      split
      · exact ih seen
      · simp only [List.map_cons, List.nodup_cons]
        refine ⟨?_, ih (q.cscart_id :: seen)⟩
        intro hmem
        rcases List.mem_map.mp hmem with ⟨p, hp, hcid⟩
        have h2 := dedupAux_not_seen rest (q.cscart_id :: seen) p hp
        simp only [List.contains_cons, Bool.or_eq_false_iff] at h2
        have h1 := h2.1
        rw [hcid] at h1
        simp at h1

theorem dedupAux_mem_ids (l : List FetchedProduct) (seen : List String)
    (c : String) :
    c ∈ (dedupAux l seen).map (fun p => p.cscart_id) ↔
      (c ∈ l.map (fun p => p.cscart_id) ∧ seen.contains c = false) := by
  induction l generalizing seen with
  | nil => simp [dedupAux]
  | cons q rest ih =>
      rw [dedupAux]
      split
      · rename_i hseen
        rw [ih seen]
        simp only [List.map_cons, List.mem_cons]
        constructor
        · rintro ⟨h1, h2⟩; exact ⟨Or.inr h1, h2⟩
        · rintro ⟨h1 | h1, h2⟩
          · rw [h1] at h2; rw [hseen] at h2; cc
          · exact ⟨h1, h2⟩
      · rename_i hseen
        have hseen2 : seen.contains q.cscart_id = false := by
          simpa using hseen
        simp only [List.map_cons, List.mem_cons, ih (q.cscart_id :: seen)]
        simp only [List.contains_cons, Bool.or_eq_false_iff,
          beq_eq_false_iff_ne]
        constructor
        · rintro (h | ⟨h1, h2, h3⟩)
          · exact ⟨Or.inl h, h ▸ hseen2⟩
          · exact ⟨Or.inr h1, h3⟩
        · rintro ⟨h1 | h1, h2⟩
          · exact Or.inl h1
          · by_cases hc : c = q.cscart_id
            · exact Or.inl hc
            · exact Or.inr ⟨h1, hc, h2⟩

theorem dedupAux_first (l : List FetchedProduct) (seen : List String)
    (p : FetchedProduct) (hp : p ∈ dedupAux l seen) :
    l.find? (fun q => q.cscart_id == p.cscart_id) = some p := by
  induction l generalizing seen with
  | nil => simp [dedupAux] at hp
  | cons q rest ih =>
      rw [dedupAux] at hp
      split at hp
      · rename_i hseen
        have hns := dedupAux_not_seen rest seen p hp
        have hne : (q.cscart_id == p.cscart_id) = false := by
          rw [beq_eq_false_iff_ne]
          intro hqp
          rw [← hqp] at hns
          rw [hseen] at hns
          cc
        rw [List.find?_cons, hne]
        exact ih seen hp
      · rcases List.mem_cons.mp hp with h | h
        · subst h
          rw [List.find?_cons]
          simp
        · have hns := dedupAux_not_seen rest (q.cscart_id :: seen) p h
          simp only [List.contains_cons, Bool.or_eq_false_iff,
            beq_eq_false_iff_ne] at hns
          have hne : (q.cscart_id == p.cscart_id) = false := by
            rw [beq_eq_false_iff_ne]
            exact fun hq => hns.1 hq.symm
          rw [List.find?_cons, hne]
          exact ih (q.cscart_id :: seen) h

end Pipeline

/-- C1, evidence of the code bug: a RenderJob for product p1 created at
2026-10-12 06:00:00 UTC is stored with the SQLite CURRENT_TIMESTAMP
string, the idempotency check later the same day (09:00 UTC, which is
also the same Ashgabat calendar day) binds the Python isoformat day-start
string, and the TEXT comparison makes the check return false, so the
item is not skipped by a same-day rerun, contradicting the claim that
one created job makes every later same-day call return true. -/
theorem c1_same_day_job_check_returns_false :
    (Models.get_video_task Examples.exDbTask 1).map (fun t => t.created_at) =
      some "2026-10-12 06:00:00" ∧
    Tm.pyIsoUtc (Tm.dayStart Examples.exQuery) =
      "2026-10-12T00:00:00+00:00" ∧
    Models.product_has_video_today Examples.exDbTask "p1" Examples.exQuery =
      false :=
  ⟨rfl, rfl, rfl⟩

/-- C10, evidence of the same code bug: even a RenderJob whose status was
set to failed, created within the current day window, does not make the
check return true — the check returns false for every same-day job of
any status, so the item is not skipped, contradicting the claim that any
same-day job (of any status) makes the check return true. -/
theorem c10_failed_status_same_day_job_not_counted :
    (Models.get_video_task Examples.exDbFailedTask 1).map (fun t => t.status) =
      some "failed" ∧
    Models.product_has_video_today Examples.exDbFailedTask "p1"
      Examples.exQuery = false :=
  ⟨rfl, rfl⟩

/-- C2 counterexample: the approve and publish callbacks applied to a job
whose status is failed do not reject and are not a no-op — they set the
status to approved and published respectively, so a job reaches approved
and published without ever having succeeded. -/
theorem c2_counterexample_approve_failed_job :
    (Models.get_video_task Examples.exDbFailedTask 1).map (fun t => t.status) =
      some "failed" ∧
    (Models.get_video_task
        (Handlers.handle_approve Examples.exDbFailedTask 1 Examples.exQuery)
        1).map (fun t => t.status) = some "approved" ∧
    (Models.get_video_task
        (Handlers.handle_publish Examples.exDbFailedTask 1 Examples.exQuery)
        1).map (fun t => t.status) = some "published" :=
  ⟨rfl, rfl, rfl⟩

/-- C2 amended: the approve and publish operations are unguarded — for a
job in any current status (failed, submitted, processing, anything) they
unconditionally set the status to approved and published respectively;
reachability of approved and published only from succeed is enforced
solely by the transport attaching approval buttons to succeeded renders,
not by the operations themselves. -/
theorem c2_amended_approve_publish_unconditional :
    ∀ (db : Models.DB) (task_id : Nat) (now : Tm.UtcTime)
      (t : Models.TaskRow),
      Models.get_video_task db task_id = some t →
      Models.get_video_task (Handlers.handle_approve db task_id now)
          task_id =
        some { t with status := "approved", updated_at := Tm.pyIsoUtc now } ∧
      Models.get_video_task (Handlers.handle_publish db task_id now)
          task_id =
        some { t with status := "published", updated_at := Tm.pyIsoUtc now } := by
  intro db tid now t h
  have h2 : db.video_tasks.find? (fun r => r.id == tid) = some t := h
  have hid : (t.id == tid) = true := by
    have h3 := List.find?_some h2
    simpa using h3
  have hideq : t.id = tid := by simpa using hid
  constructor
  · rw [Handlers.handle_approve, Models.get_update_video_task, h]
    simp [hid, hideq, Models.applyTaskUpdate]
  · rw [Handlers.handle_publish, Models.get_update_video_task, h]
    simp [hid, hideq, Models.applyTaskUpdate]

/-- C2 witness: the amended statement applied to the concrete failed job. -/
theorem c2_amended_witness :
    Models.get_video_task Examples.exDbFailedTask 1 =
      some Examples.exFailedRow ∧
    Models.get_video_task
        (Handlers.handle_approve Examples.exDbFailedTask 1 Examples.exQuery)
        1 =
      some { Examples.exFailedRow with
               status := "approved",
               updated_at := Tm.pyIsoUtc Examples.exQuery } :=
  ⟨rfl,
   (c2_amended_approve_publish_unconditional Examples.exDbFailedTask 1
     Examples.exQuery Examples.exFailedRow rfl).1⟩

/-- C3: for every pair of fetched lists, the dedup step yields a working
set that is a sublist of the recent-then-popular concatenation, whose
external ids are pairwise distinct, in which every incoming id occurs
exactly once, and in which every kept entry is exactly the first entry
of the concatenation carrying its id — first-seen order. -/
theorem c3_dedup_each_id_once_first_seen :
    ∀ (recent popular : List Gateway.FetchedProduct),
    ((Pipeline.dedupProducts (recent ++ popular)).map
        (fun p => p.cscart_id)).Nodup ∧
    (Pipeline.dedupProducts (recent ++ popular)).Sublist (recent ++ popular) ∧
    (∀ c, c ∈ (recent ++ popular).map (fun p => p.cscart_id) →
      ((Pipeline.dedupProducts (recent ++ popular)).map
          (fun p => p.cscart_id)).count c = 1) ∧
    (∀ p ∈ Pipeline.dedupProducts (recent ++ popular),
      (recent ++ popular).find? (fun q => q.cscart_id == p.cscart_id) =
        some p) := by
  intro recent popular
  refine ⟨Pipeline.dedupAux_nodup _ [], Pipeline.dedupAux_sublist _ [],
    ?_, ?_⟩
  · intro c hc
    have hmem : c ∈ (Pipeline.dedupProducts (recent ++ popular)).map
        (fun p => p.cscart_id) := by
      rw [Pipeline.dedupProducts, Pipeline.dedupAux_mem_ids]
      exact ⟨hc, rfl⟩
    exact List.count_eq_one_of_mem (Pipeline.dedupAux_nodup _ []) hmem
  · intro p hp
    exact Pipeline.dedupAux_first _ [] p hp

/-- C3 witness: the theorem applied to the overlapping concrete fetches;
the duplicated id b is kept once and the entry kept for it is the first
occurrence, the one from the recent list. -/
theorem c3_witness :
    ((Pipeline.dedupProducts (Examples.exRecent ++ Examples.exPopular)).map
        (fun p => p.cscart_id)).count "b" = 1 ∧
    (Examples.exRecent ++ Examples.exPopular).find?
        (fun q => q.cscart_id == Examples.fpB.cscart_id) =
      some Examples.fpB :=
  ⟨(c3_dedup_each_id_once_first_seen Examples.exRecent
      Examples.exPopular).2.2.1 "b" (by decide),
   (c3_dedup_each_id_once_first_seen Examples.exRecent
      Examples.exPopular).2.2.2 Examples.fpB (by decide)⟩

namespace Pipeline

theorem mem_insertDesc {α : Type} (key : α → Int) (e a : α) (l : List α) :
    a ∈ insertDesc key e l ↔ a = e ∨ a ∈ l := by
  induction l with
  | nil => simp [insertDesc]
  | cons y ys ih =>
      rw [insertDesc]
      split
      · rw [List.mem_cons, ih, List.mem_cons]
        tauto
      · rw [List.mem_cons, List.mem_cons]

theorem insertDesc_perm {α : Type} (key : α → Int) (e : α) (l : List α) :
    (insertDesc key e l).Perm (e :: l) := by
  induction l with
  | nil => simp [insertDesc]
  | cons y ys ih =>
      rw [insertDesc]
      split
      · exact (ih.cons y).trans (List.Perm.swap e y ys)
      · exact List.Perm.refl _

theorem sortDesc_perm {α : Type} (key : α → Int) (l : List α) :
    (sortDesc key l).Perm l := by
  induction l with
  | nil => simp [sortDesc]
  | cons x xs ih =>
      rw [sortDesc]
      exact (insertDesc_perm key x (sortDesc key xs)).trans (ih.cons x)

theorem insertDesc_sorted {α : Type} (key : α → Int) (e : α) (l : List α)
    (hl : l.Pairwise (fun a b => key b ≤ key a)) :
    (insertDesc key e l).Pairwise (fun a b => key b ≤ key a) := by
  induction l with
  | nil => simp [insertDesc]
  | cons y ys ih =>
      rw [insertDesc]
      rcases List.pairwise_cons.mp hl with ⟨hy, hys⟩
      split
      · rename_i hlt
        rw [List.pairwise_cons]
        refine ⟨?_, ih hys⟩
        intro z hz
        rcases (mem_insertDesc key e z ys).mp hz with h | h
        · subst h; exact le_of_lt hlt
        · exact hy z h
      · rename_i hge
        rw [List.pairwise_cons]
        refine ⟨?_, hl⟩
        intro z hz
        rcases List.mem_cons.mp hz with h | h
        · subst h; exact le_of_not_lt hge
        · exact le_trans (hy z h) (le_of_not_lt hge)

theorem sortDesc_sorted {α : Type} (key : α → Int) (l : List α) :
    (sortDesc key l).Pairwise (fun a b => key b ≤ key a) := by
  induction l with
  | nil => simp [sortDesc]
  | cons x xs ih =>
      rw [sortDesc]
      exact insertDesc_sorted key x (sortDesc key xs) ih

theorem insertDesc_stable {α : Type} (key : α → Int) (e : Nat × α)
    (l : List (Nat × α)) (hfresh : ∀ y ∈ l, e.1 < y.1)
    (hl : l.Pairwise (scoreTieOrder key)) :
    (insertDesc (fun p => key p.2) e l).Pairwise (scoreTieOrder key) := by
  induction l with
  | nil => simp [insertDesc]
  | cons y ys ih =>
      rw [insertDesc]
      rcases List.pairwise_cons.mp hl with ⟨hy, hys⟩
      split
      · rename_i hlt
        rw [List.pairwise_cons]
        refine ⟨?_, ih (fun z hz => hfresh z (List.mem_cons_of_mem y hz)) hys⟩
        intro z hz
        rcases (mem_insertDesc _ e z ys).mp hz with h | h
        · subst h; exact Or.inl hlt
        · exact hy z h
      · rename_i hge
        have hyle : key y.2 ≤ key e.2 := le_of_not_lt hge
        rw [List.pairwise_cons]
        constructor
        · intro z hz
          rcases List.mem_cons.mp hz with h | h
          · have h1 : key z.2 ≤ key e.2 := by rw [h]; exact hyle
            have h2 : e.1 < z.1 := by
              rw [h]; exact hfresh y (List.mem_cons_self y ys)
            rcases lt_or_eq_of_le h1 with hlt | heq
            · exact Or.inl hlt
            · exact Or.inr ⟨heq.symm, h2⟩
          · rcases hy z h with hzy | ⟨heq, _htag⟩
            · exact Or.inl (lt_of_lt_of_le hzy hyle)
            · rcases lt_or_eq_of_le hyle with hlt | heq2
              · exact Or.inl (heq ▸ hlt)
              · exact Or.inr ⟨heq2.symm.trans heq, hfresh z hz⟩
        · exact hl

theorem enumFrom_fst_ge {α : Type} (l : List α) (n : Nat) (y : Nat × α)
    (hy : y ∈ List.enumFrom n l) : n ≤ y.1 := by
  induction l generalizing n with
  | nil => simp [List.enumFrom] at hy
  | cons x xs ih =>
      rw [List.enumFrom] at hy
      rcases List.mem_cons.mp hy with h | h
      · rw [h]
      · exact le_trans (Nat.le_succ n) (ih (n + 1) h)

theorem enumFrom_tags_increasing {α : Type} (l : List α) (n : Nat) :
    (List.enumFrom n l).Pairwise (fun a b => a.1 < b.1) := by
  induction l generalizing n with
  | nil => simp [List.enumFrom]
  | cons x xs ih =>
      rw [List.enumFrom, List.pairwise_cons]
      refine ⟨?_, ih (n + 1)⟩
      intro y hy
      exact lt_of_lt_of_le (Nat.lt_succ_self n) (enumFrom_fst_ge xs (n + 1) y hy)

theorem sortDesc_stable_aux {α : Type} (key : α → Int)
    (l : List (Nat × α)) (hl : l.Pairwise (fun a b => a.1 < b.1)) :
    (sortDesc (fun p => key p.2) l).Pairwise (scoreTieOrder key) := by
  induction l with
  | nil => simp [sortDesc]
  | cons x xs ih =>
      rw [sortDesc]
      rcases List.pairwise_cons.mp hl with ⟨hx, hxs⟩
      refine insertDesc_stable key x (sortDesc (fun p => key p.2) xs) ?_
        (ih hxs)
      intro y hy
      exact hx y ((sortDesc_perm (fun p => key p.2) xs).mem_iff.mp hy)

theorem sortDesc_stable_enum {α : Type} (key : α → Int) (l : List α) :
    (sortDesc (fun p => key p.2) l.enum).Pairwise (scoreTieOrder key) :=
  sortDesc_stable_aux key l.enum (enumFrom_tags_increasing l 0)

theorem insertDesc_map_snd {α : Type} (key : α → Int) (e : Nat × α)
    (l : List (Nat × α)) :
    (insertDesc (fun p => key p.2) e l).map Prod.snd =
      insertDesc key e.2 (l.map Prod.snd) := by
  induction l with
  | nil => simp [insertDesc]
  | cons y ys ih =>
      rw [insertDesc]
      rw [List.map_cons, insertDesc]
      split
      · rw [List.map_cons, ih]
      · rw [List.map_cons, List.map_cons]

theorem sortDesc_map_snd {α : Type} (key : α → Int) (l : List (Nat × α)) :
    (sortDesc (fun p => key p.2) l).map Prod.snd =
      sortDesc key (l.map Prod.snd) := by
  induction l with
  | nil => simp [sortDesc]
  | cons x xs ih =>
      rw [sortDesc, List.map_cons, sortDesc, insertDesc_map_snd, ih]

theorem sortDesc_eq_enum_snd {α : Type} (key : α → Int) (l : List α) :
    sortDesc key l = (sortDesc (fun p => key p.2) l.enum).map Prod.snd := by
  rw [sortDesc_map_snd, List.enum_map_snd]

end Pipeline

/-- C5: when no curation entry carries a truthy selected flag, the
selection step returns exactly the first PRODUCTS_TO_SELECT_DAILY
entries of the stable descending sort of the scored list, re-marked
selected: the selection has length min N (number of entries), every
entry is marked selected, it is sorted by score descending, every
selected score is at least every non-selected score, the sort is a
permutation of the input, and the sort is stable — on position-tagged
entries it is ordered by score descending with ties broken by the
original position. -/
theorem c5_fallback_selects_topN_stable :
    ∀ (scored : List Stylist.ScoredEntry),
      (∀ s ∈ scored, Stylist.isSelected s = false) →
      (Pipeline.applySelection scored).2 =
        ((Pipeline.sortDesc Stylist.entryScore scored).take
          Config.PRODUCTS_TO_SELECT_DAILY).map Pipeline.markSelected ∧
      (Pipeline.applySelection scored).2.length =
        min Config.PRODUCTS_TO_SELECT_DAILY scored.length ∧
      (∀ s ∈ (Pipeline.applySelection scored).2, s.selected = some true) ∧
      (Pipeline.applySelection scored).2.Pairwise
        (fun a b => Stylist.entryScore b ≤ Stylist.entryScore a) ∧
      (∀ a ∈ (Pipeline.applySelection scored).2,
        ∀ b ∈ (Pipeline.sortDesc Stylist.entryScore scored).drop
          Config.PRODUCTS_TO_SELECT_DAILY,
          Stylist.entryScore b ≤ Stylist.entryScore a) ∧
      (Pipeline.sortDesc Stylist.entryScore scored).Perm scored ∧
      Pipeline.sortDesc Stylist.entryScore scored =
        (Pipeline.sortDesc (fun p => Stylist.entryScore p.2)
          scored.enum).map Prod.snd ∧
      (Pipeline.sortDesc (fun p => Stylist.entryScore p.2)
        scored.enum).Pairwise
        (Pipeline.scoreTieOrder Stylist.entryScore) := by
  intro scored h
  have hfil : scored.filter Stylist.isSelected = [] := by
    rw [List.filter_eq_nil_iff]
    intro a ha
    simp [h a ha]
  have happ : (Pipeline.applySelection scored).2 =
      ((Pipeline.sortDesc Stylist.entryScore scored).take
        Config.PRODUCTS_TO_SELECT_DAILY).map Pipeline.markSelected := by
    rw [Pipeline.applySelection, hfil]
    rfl
  refine ⟨happ, ?_, ?_, ?_, ?_,
    Pipeline.sortDesc_perm Stylist.entryScore scored,
    Pipeline.sortDesc_eq_enum_snd Stylist.entryScore scored,
    Pipeline.sortDesc_stable_enum Stylist.entryScore scored⟩
  · rw [happ, List.length_map, List.length_take,
      (Pipeline.sortDesc_perm Stylist.entryScore scored).length_eq]
  · intro s hs
    rw [happ] at hs
    rcases List.mem_map.mp hs with ⟨t, _, hts⟩
    rw [← hts]
    rfl
  · rw [happ, List.pairwise_map]
    exact List.Pairwise.sublist (List.take_sublist _ _)
      (Pipeline.sortDesc_sorted Stylist.entryScore scored)
  · intro a ha b hb
    rw [happ] at ha
    rcases List.mem_map.mp ha with ⟨a0, ha0, hma⟩
    have hs := Pipeline.sortDesc_sorted Stylist.entryScore scored
    rw [← List.take_append_drop Config.PRODUCTS_TO_SELECT_DAILY
      (Pipeline.sortDesc Stylist.entryScore scored)] at hs
    rcases List.pairwise_append.mp hs with ⟨_, _, hcross⟩
    have hba := hcross a0 ha0 b hb
    rw [← hma]
    exact hba

/-- C5 witness: the theorem applied to six concrete entries, none of
them pre-selected, with a tie between two scores. -/
theorem c5_witness :
    (Pipeline.applySelection Examples.exScored).2 =
      ((Pipeline.sortDesc Stylist.entryScore Examples.exScored).take
        Config.PRODUCTS_TO_SELECT_DAILY).map Pipeline.markSelected ∧
    (Pipeline.applySelection Examples.exScored).2.length =
      min Config.PRODUCTS_TO_SELECT_DAILY Examples.exScored.length :=
  ⟨(c5_fallback_selects_topN_stable Examples.exScored (by decide)).1,
   (c5_fallback_selects_topN_stable Examples.exScored (by decide)).2.1⟩

namespace Models

theorem applySessionUpdate_id (s : SessionRow) (u : SessionUpdate) :
    (applySessionUpdate s u).id = s.id := rfl

theorem get_update_session (db : DB) (sid sid' : Nat) (u : SessionUpdate) :
    get_session (update_session db sid u) sid' =
      (get_session db sid').map
        (fun s => if s.id == sid then applySessionUpdate s u else s) := by
  unfold get_session update_session
  simp only
  rw [List.find?_map]
  have hpred : ((fun s : SessionRow => s.id == sid') ∘ fun s =>
      if (s.id == sid) = true then applySessionUpdate s u else s) =
      fun s : SessionRow => s.id == sid' := by
    funext s
    by_cases h : (s.id == sid) = true <;>
      simp [Function.comp, h, applySessionUpdate_id]
  rw [hpred]

theorem get_session_create (db : DB) :
    get_session (create_session db).1 db.next_session_id =
      some { id := db.next_session_id, products_fetched := 0,
             products_selected := 0, videos_generated := 0,
             status := "running" } := by
  unfold get_session create_session
  simp [List.find?_cons_of_pos]

end Models

/-- C6: malformed structured output from the Curator is never a fatal
error.  The scoring call catches the parse failure and returns the
deterministic fallback — every product scored 5 with the first
PRODUCTS_TO_SELECT_DAILY marked selected, entry i derived from product i
— and the scheduled run then still reaches the fan-out stage (it reports
a submitted count); only an outright Curator API error propagates, and
that one aborts the run: the run reports the error and its session row
ends with status failed. -/
theorem c6_malformed_curator_never_fatal :
    (∀ (products : List Gateway.FetchedProduct),
      Stylist.select_and_score_products products .malformed =
        .ok (Stylist.fallbackScored products)) ∧
    (∀ (products : List Gateway.FetchedProduct) (i : Nat),
      (Stylist.fallbackScored products)[i]? = (products[i]?).map (fun p =>
        { cscart_id := p.cscart_id, score := some 5,
          reasoning := some "Fallback",
          selected := some (decide (i < Config.PRODUCTS_TO_SELECT_DAILY)) })) ∧
    (∀ (products : List Gateway.FetchedProduct) (e : String),
      Stylist.select_and_score_products products (.apiError e) =
        .error e) ∧
    (∀ (env : Pipeline.Env) (now : Tm.UtcTime) (db : Models.DB),
      env.curator = .malformed →
      Pipeline.dedupProducts (env.new_products ++ env.popular_products) ≠
        [] →
      ∃ n, Pipeline.Event.submitted n ∈
        (Sched.daily_generation_job env now db).events) ∧
    (∀ (env : Pipeline.Env) (now : Tm.UtcTime) (db : Models.DB)
      (e : String),
      env.curator = .apiError e →
      Pipeline.dedupProducts (env.new_products ++ env.popular_products) ≠
        [] →
      (Sched.daily_generation_job env now db).events =
        [Pipeline.Event.started, Pipeline.Event.runError e] ∧
      ∃ s, Models.get_session (Sched.daily_generation_job env now db).db
          db.next_session_id = some s ∧ s.status = "failed") := by
  refine ⟨fun products => rfl, ?_, fun products e => rfl, ?_, ?_⟩
  · intro products i
    rw [Stylist.fallbackScored, List.getElem?_map, List.getElem?_enum,
      Option.map_map]
    rfl
  · intro env now db hmal hne
    have hie : (Pipeline.dedupProducts
        (env.new_products ++ env.popular_products)).isEmpty = false := by
      cases hl : Pipeline.dedupProducts
          (env.new_products ++ env.popular_products) with
      | nil => exact absurd hl hne
      | cons a l => rfl
    simp only [Sched.daily_generation_job, hmal, hie,
      Stylist.select_and_score_products, Bool.false_eq_true, if_false]
    split
    · exact ⟨_, List.mem_cons_of_mem _ (List.mem_cons_self _ _)⟩
    · exact ⟨_, List.mem_append.mpr
        (Or.inl (List.mem_cons_of_mem _ (List.mem_cons_self _ _)))⟩
  · intro env now db e hapi hne
    have hie : (Pipeline.dedupProducts
        (env.new_products ++ env.popular_products)).isEmpty = false := by
      cases hl : Pipeline.dedupProducts
          (env.new_products ++ env.popular_products) with
      | nil => exact absurd hl hne
      | cons a l => rfl
    simp only [Sched.daily_generation_job, hapi, hie,
      Stylist.select_and_score_products, Bool.false_eq_true, if_false]
    refine ⟨trivial, ?_⟩
    rw [Models.get_update_session, Models.get_update_session,
      Models.get_session_create]
    simp [Models.create_session, Models.applySessionUpdate]

/-- C6 witness: the fallback equality at three concrete products, and
the abort branch at a concrete environment whose Curator call fails
outright. -/
theorem c6_witness :
    Stylist.select_and_score_products
        [Examples.fpA, Examples.fpB, Examples.fpC] .malformed =
      .ok (Stylist.fallbackScored
        [Examples.fpA, Examples.fpB, Examples.fpC]) ∧
    (Sched.daily_generation_job Examples.exEnvApiErr Examples.exQuery
        Models.emptyDB).events =
      [Pipeline.Event.started, Pipeline.Event.runError "boom"] :=
  ⟨c6_malformed_curator_never_fatal.1
      [Examples.fpA, Examples.fpB, Examples.fpC],
   (c6_malformed_curator_never_fatal.2.2.2.2 Examples.exEnvApiErr
      Examples.exQuery Models.emptyDB "boom" rfl (by decide)).1⟩

/-- C7: the render submission distinguishes its failures as claimed.
Rate-limit responses back off exponentially — after the three bounded
attempts the sleep trace is 5, 10, 20 seconds and the call surfaces the
retries-exhausted error; server errors back off on the longer fixed
60-second delay with the same bound; a rejection (non-zero API code in a
successful HTTP response) propagates immediately as a ValueError with no
retry and no back-off sleep. -/
theorem c7_submit_backoff_policy :
    (∀ (resp : Nat → Kling.SubmitResp),
      (∀ j, j < Kling.max_retries → resp j = .rateLimited) →
      Kling.create_video_task resp = .exhausted [5, 10, 20]) ∧
    (∀ (resp : Nat → Kling.SubmitResp),
      (∀ j, j < Kling.max_retries → resp j = .serverError) →
      Kling.create_video_task resp = .exhausted [60, 60, 60]) ∧
    (∀ (resp : Nat → Kling.SubmitResp) (c : Int) (m tid : String),
      resp 0 = .httpOk c m tid → c ≠ 0 →
      Kling.create_video_task resp = .rejected c m []) := by
  refine ⟨?_, ?_, ?_⟩
  · intro resp h
    have h0 := h 0 (by decide)
    have h1 := h 1 (by decide)
    have h2 := h 2 (by decide)
    simp [Kling.create_video_task, Kling.max_retries, Kling.cvtAux,
      h0, h1, h2]
  · intro resp h
    have h0 := h 0 (by decide)
    have h1 := h 1 (by decide)
    have h2 := h 2 (by decide)
    simp [Kling.create_video_task, Kling.max_retries, Kling.cvtAux,
      h0, h1, h2]
  · intro resp c m tid h0 hc
    simp [Kling.create_video_task, Kling.max_retries, Kling.cvtAux,
      h0, hc]

/-- C7 witness: the three branches applied to concrete response
sequences — all rate-limited, all server errors, and an immediate
rejection with API code 1234. -/
theorem c7_witness :
    Kling.create_video_task (fun _ => .rateLimited) =
      .exhausted [5, 10, 20] ∧
    Kling.create_video_task (fun _ => .serverError) =
      .exhausted [60, 60, 60] ∧
    Kling.create_video_task (fun _ => .httpOk 1234 "denied" "") =
      .rejected 1234 "denied" [] :=
  ⟨c7_submit_backoff_policy.1 (fun _ => .rateLimited) (fun j _ => rfl),
   c7_submit_backoff_policy.2.1 (fun _ => .serverError) (fun j _ => rfl),
   c7_submit_backoff_policy.2.2 (fun _ => .httpOk 1234 "denied" "") 1234
     "denied" "" rfl (by decide)⟩

namespace Kling

open Config

theorem pollAux_succeed (f : Nat → PollStatus) (t e k : Nat) (he : e < t)
    (u : String) (hfk : f k = .succeed u) :
    pollAux f t e k = .succeed u := by
  rw [pollAux]
  simp [he, hfk]

theorem pollAux_failed2 (f : Nat → PollStatus) (t e k : Nat) (he : e < t)
    (er : String) (hfk : f k = .failed er) :
    pollAux f t e k = .failed er := by
  rw [pollAux]
  simp [he, hfk]

theorem pollAux_step (f : Nat → PollStatus) (t e k : Nat) (he : e < t)
    (hnt : isTerminal (f k) = false) :
    pollAux f t e k =
      pollAux f t (e + KLINGAI_POLLING_INTERVAL) (k + 1) := by
  cases hfk : f k with
  | succeed u => rw [hfk] at hnt; simp [isTerminal] at hnt
  | failed er => rw [hfk] at hnt; simp [isTerminal] at hnt
  | error er => rw [pollAux]; simp [he, hfk]
  | other st => rw [pollAux]; simp [he, hfk]

theorem pollAux_skip (f : Nat → PollStatus) (t : Nat) :
    ∀ (i e k : Nat),
      (∀ j, j < i → isTerminal (f (k + j)) = false) →
      (∀ j, j < i → e + KLINGAI_POLLING_INTERVAL * j < t) →
      pollAux f t e k =
        pollAux f t (e + KLINGAI_POLLING_INTERVAL * i) (k + i) := by
  intro i
  induction i with
  | zero => intro e k _ _; simp
  | succ n ih =>
      intro e k hnt hlt
      have h0e : e < t := by
        have := hlt 0 (Nat.succ_pos n)
        simpa using this
      have h0t : isTerminal (f k) = false := by
        have := hnt 0 (Nat.succ_pos n)
        simpa using this
      rw [pollAux_step f t e k h0e h0t]
      have hrec := ih (e + KLINGAI_POLLING_INTERVAL) (k + 1)
        (fun j hj => by
          have := hnt (j + 1) (by omega)
          have harg : k + 1 + j = k + (j + 1) := by omega
          rw [harg]
          exact this)
        (fun j hj => by
          have := hlt (j + 1) (by omega)
          have harg : e + KLINGAI_POLLING_INTERVAL +
              KLINGAI_POLLING_INTERVAL * j =
              e + KLINGAI_POLLING_INTERVAL * (j + 1) := by
            simp only [KLINGAI_POLLING_INTERVAL]
            omega
          rw [harg]
          exact this)
      rw [hrec]
      have h1 : e + KLINGAI_POLLING_INTERVAL +
          KLINGAI_POLLING_INTERVAL * n =
          e + KLINGAI_POLLING_INTERVAL * (n + 1) := by
        simp only [KLINGAI_POLLING_INTERVAL]
        omega
      have h2 : k + 1 + n = k + (n + 1) := by omega
      rw [h1, h2]

theorem pollAux_no_terminal (f : Nat → PollStatus) (t : Nat)
    (hf : ∀ j, isTerminal (f j) = false) :
    ∀ (n e k : Nat), t - e ≤ n → pollAux f t e k = .failed "Timeout" := by
  intro n
  induction n with
  | zero =>
      intro e k hle
      rw [pollAux]
      have : ¬ e < t := by omega
      simp [this]
  | succ n ih =>
      intro e k hle
      by_cases he : e < t
      · rw [pollAux_step f t e k he (hf k)]
        refine ih _ _ ?_
        simp only [KLINGAI_POLLING_INTERVAL]
        omega
      · rw [pollAux]
        simp [he]

theorem poll_first_terminal (f : Nat → PollStatus) (timeout k : Nat)
    (hk : KLINGAI_POLLING_INTERVAL * k < timeout)
    (hbefore : ∀ j, j < k → isTerminal (f j) = false) :
    (∀ u, f k = .succeed u →
      poll_task_until_done f timeout = .succeed u) ∧
    (∀ er, f k = .failed er →
      poll_task_until_done f timeout = .failed er) := by
  have hskip : pollAux f timeout 0 0 =
      pollAux f timeout (0 + KLINGAI_POLLING_INTERVAL * k) (0 + k) := by
    refine pollAux_skip f timeout k 0 0 ?_ ?_
    · intro j hj
      have := hbefore j hj
      simpa using this
    · intro j hj
      have : KLINGAI_POLLING_INTERVAL * j < KLINGAI_POLLING_INTERVAL * k := by
        simp only [KLINGAI_POLLING_INTERVAL] at hk ⊢
        omega
      omega
  have he : 0 + KLINGAI_POLLING_INTERVAL * k < timeout := by omega
  constructor
  · intro u hfk
    rw [poll_task_until_done, hskip]
    exact pollAux_succeed f timeout _ _ he u (by simpa using hfk)
  · intro er hfk
    rw [poll_task_until_done, hskip]
    exact pollAux_failed2 f timeout _ _ he er (by simpa using hfk)

theorem poll_timeout (f : Nat → PollStatus) (timeout : Nat)
    (hf : ∀ j, isTerminal (f j) = false) :
    poll_task_until_done f timeout = .failed "Timeout" := by
  rw [poll_task_until_done]
  exact pollAux_no_terminal f timeout hf timeout 0 0 (by omega)

end Kling

namespace Models

theorem applyTaskUpdate_klingai (t : TaskRow) (u : TaskUpdate)
    (now : Tm.UtcTime) :
    (applyTaskUpdate t u now).klingai_task_id = t.klingai_task_id := rfl

theorem applyTaskUpdate_status (t : TaskRow) (u : TaskUpdate)
    (now : Tm.UtcTime) (s : String) (hs : u.status = some s) :
    (applyTaskUpdate t u now).status = s := by
  rw [applyTaskUpdate]
  simp [hs]

end Models

namespace Pipeline

theorem pollPhase_nil (env : Env) (now : Tm.UtcTime) (db : Models.DB) :
    pollPhase env now db [] = { db := db, events := [], completed := 0 } :=
  rfl

theorem pollPhase_cons_none (env : Env) (now : Tm.UtcTime)
    (db : Models.DB) (hd : Nat) (rest : List Nat)
    (h : Models.get_video_task db hd = none) :
    pollPhase env now db (hd :: rest) = pollPhase env now db rest := by
  rw [pollPhase, h]

theorem pollPhase_cons_skip (env : Env) (now : Tm.UtcTime)
    (db : Models.DB) (hd : Nat) (rest : List Nat) (task : Models.TaskRow)
    (h : Models.get_video_task db hd = some task)
    (hk : task.klingai_task_id = "") :
    pollPhase env now db (hd :: rest) = pollPhase env now db rest := by
  rw [pollPhase, h]
  simp [hk]

theorem pollPhase_cons_succeed (env : Env) (now : Tm.UtcTime)
    (db : Models.DB) (hd : Nat) (rest : List Nat) (task : Models.TaskRow)
    (url : String)
    (h : Models.get_video_task db hd = some task)
    (hk : task.klingai_task_id ≠ "")
    (hpoll : Kling.poll_task_until_done (env.poll task.klingai_task_id)
      Config.KLINGAI_TASK_TIMEOUT = .succeed url) :
    pollPhase env now db (hd :: rest) =
      { db := (pollPhase env now
          (Models.update_video_task db hd
            { status := some "succeed", video_url := some url } now)
          rest).db,
        events := Event.videoApproval hd ::
          (pollPhase env now
            (Models.update_video_task db hd
              { status := some "succeed", video_url := some url } now)
            rest).events,
        completed := (pollPhase env now
          (Models.update_video_task db hd
            { status := some "succeed", video_url := some url } now)
          rest).completed + 1 } := by
  rw [pollPhase, h]
  simp [hk, hpoll]

theorem pollPhase_cons_failed (env : Env) (now : Tm.UtcTime)
    (db : Models.DB) (hd : Nat) (rest : List Nat) (task : Models.TaskRow)
    (er : String)
    (h : Models.get_video_task db hd = some task)
    (hk : task.klingai_task_id ≠ "")
    (hpoll : Kling.poll_task_until_done (env.poll task.klingai_task_id)
      Config.KLINGAI_TASK_TIMEOUT = .failed er) :
    pollPhase env now db (hd :: rest) =
      { db := (pollPhase env now
          (Models.update_video_task db hd
            { status := some "failed" } now) rest).db,
        events := Event.taskFailed hd ::
          (pollPhase env now
            (Models.update_video_task db hd
              { status := some "failed" } now) rest).events,
        completed := (pollPhase env now
          (Models.update_video_task db hd
            { status := some "failed" } now) rest).completed } := by
  rw [pollPhase, h]
  simp [hk, hpoll]

end Pipeline

namespace Pipeline

theorem pollPhase_get (env : Env) (now : Tm.UtcTime) :
    ∀ (ids : List Nat) (db : Models.DB) (tid : Nat) (t : Models.TaskRow),
      Models.get_video_task (pollPhase env now db ids).db tid = some t →
      Models.get_video_task db tid = some t ∨
        t.status = "succeed" ∨ t.status = "failed" := by
  intro ids
  induction ids with
  | nil => intro db tid t h; exact Or.inl h
  | cons hd rest ih =>
      intro db tid t h
      cases hget : Models.get_video_task db hd with
      | none =>
          rw [pollPhase_cons_none env now db hd rest hget] at h
          exact ih db tid t h
      | some task =>
          by_cases hk : task.klingai_task_id = ""
          · rw [pollPhase_cons_skip env now db hd rest task hget hk] at h
            exact ih db tid t h
          · cases hpoll : Kling.poll_task_until_done
                (env.poll task.klingai_task_id)
                Config.KLINGAI_TASK_TIMEOUT with
            | succeed url =>
                rw [pollPhase_cons_succeed env now db hd rest task url hget
                  hk hpoll] at h
                simp only at h
                rcases ih _ tid t h with hin | hterm
                · rw [Models.get_update_video_task] at hin
                  cases hdb : Models.get_video_task db tid with
                  | none => rw [hdb] at hin; simp at hin
                  | some t0 =>
                      rw [hdb] at hin
                      simp only [Option.map_some'] at hin
                      have ht := Option.some.inj hin
                      by_cases hid : (t0.id == hd) = true
                      · rw [if_pos hid] at ht
                        refine Or.inr (Or.inl ?_)
                        rw [← ht]
                        exact Models.applyTaskUpdate_status t0 _ now
                          "succeed" rfl
                      · rw [if_neg hid] at ht
                        rw [← ht]
                        exact Or.inl rfl
                · exact Or.inr hterm
            | failed er =>
                rw [pollPhase_cons_failed env now db hd rest task er hget
                  hk hpoll] at h
                simp only at h
                rcases ih _ tid t h with hin | hterm
                · rw [Models.get_update_video_task] at hin
                  cases hdb : Models.get_video_task db tid with
                  | none => rw [hdb] at hin; simp at hin
                  | some t0 =>
                      rw [hdb] at hin
                      simp only [Option.map_some'] at hin
                      have ht := Option.some.inj hin
                      by_cases hid : (t0.id == hd) = true
                      · rw [if_pos hid] at ht
                        refine Or.inr (Or.inr ?_)
                        rw [← ht]
                        exact Models.applyTaskUpdate_status t0 _ now
                          "failed" rfl
                      · rw [if_neg hid] at ht
                        rw [← ht]
                        exact Or.inl rfl
                · exact Or.inr hterm

theorem pollPhase_get_some (env : Env) (now : Tm.UtcTime) :
    ∀ (ids : List Nat) (db : Models.DB) (tid : Nat) (t : Models.TaskRow),
      Models.get_video_task db tid = some t →
      ∃ t2, Models.get_video_task (pollPhase env now db ids).db tid =
          some t2 ∧ t2.klingai_task_id = t.klingai_task_id := by
  intro ids
  induction ids with
  | nil => intro db tid t h; exact ⟨t, h, rfl⟩
  | cons hd rest ih =>
      intro db tid t h
      cases hget : Models.get_video_task db hd with
      | none =>
          rw [pollPhase_cons_none env now db hd rest hget]
          exact ih db tid t h
      | some task =>
          by_cases hk : task.klingai_task_id = ""
          · rw [pollPhase_cons_skip env now db hd rest task hget hk]
            exact ih db tid t h
          · cases hpoll : Kling.poll_task_until_done
                (env.poll task.klingai_task_id)
                Config.KLINGAI_TASK_TIMEOUT with
            | succeed url =>
                rw [pollPhase_cons_succeed env now db hd rest task url hget
                  hk hpoll]
                simp only
                have hup : Models.get_video_task
                    (Models.update_video_task db hd
                      { status := some "succeed", video_url := some url }
                      now) tid =
                    some (if (t.id == hd) = true then
                      Models.applyTaskUpdate t
                        { status := some "succeed",
                          video_url := some url } now else t) := by
                  rw [Models.get_update_video_task, h]
                  rfl
                by_cases hid : (t.id == hd) = true
                · rw [if_pos hid] at hup
                  rcases ih _ tid _ hup with ⟨t2, h2, hk2⟩
                  refine ⟨t2, h2, ?_⟩
                  rw [hk2]
                  exact Models.applyTaskUpdate_klingai t _ now
                · rw [if_neg hid] at hup
                  exact ih _ tid t hup
            | failed er =>
                rw [pollPhase_cons_failed env now db hd rest task er hget
                  hk hpoll]
                simp only
                have hup : Models.get_video_task
                    (Models.update_video_task db hd
                      { status := some "failed" } now) tid =
                    some (if (t.id == hd) = true then
                      Models.applyTaskUpdate t
                        { status := some "failed" } now else t) := by
                  rw [Models.get_update_video_task, h]
                  rfl
                by_cases hid : (t.id == hd) = true
                · rw [if_pos hid] at hup
                  rcases ih _ tid _ hup with ⟨t2, h2, hk2⟩
                  refine ⟨t2, h2, ?_⟩
                  rw [hk2]
                  exact Models.applyTaskUpdate_klingai t _ now
                · rw [if_neg hid] at hup
                  exact ih _ tid t hup

end Pipeline

namespace Pipeline

theorem pollPhase_processes (env : Env) (now : Tm.UtcTime) :
    ∀ (ids : List Nat) (db : Models.DB) (tid : Nat) (t0 : Models.TaskRow),
      tid ∈ ids → Models.get_video_task db tid = some t0 →
      t0.klingai_task_id ≠ "" →
      ∃ t, Models.get_video_task (pollPhase env now db ids).db tid =
          some t ∧ (t.status = "succeed" ∨ t.status = "failed") := by
  intro ids
  induction ids with
  | nil => intro db tid t0 hmem; simp at hmem
  | cons hd rest ih =>
      intro db tid t0 hmem hget hk
      rcases List.mem_cons.mp hmem with heq | hmemrest
      · subst heq
        have hid : (t0.id == tid) = true := by
          have h2 : db.video_tasks.find? (fun r => r.id == tid) =
              some t0 := hget
          have h3 := List.find?_some h2
          simpa using h3
        have hideq : t0.id = tid := by simpa using hid
        cases hpoll : Kling.poll_task_until_done
            (env.poll t0.klingai_task_id)
            Config.KLINGAI_TASK_TIMEOUT with
        | succeed url =>
            rw [pollPhase_cons_succeed env now db tid rest t0 url hget hk
              hpoll]
            simp only
            have hup : Models.get_video_task
                (Models.update_video_task db tid
                  { status := some "succeed", video_url := some url }
                  now) tid =
                some (Models.applyTaskUpdate t0
                  { status := some "succeed", video_url := some url }
                  now) := by
              rw [Models.get_update_video_task, hget]
              simp [hid, hideq]
            rcases pollPhase_get_some env now rest _ tid _ hup with
              ⟨t2, h2, _⟩
            rcases pollPhase_get env now rest _ tid t2 h2 with hin | hterm
            · refine ⟨t2, h2, Or.inl ?_⟩
              rw [hup] at hin
              have := Option.some.inj hin
              rw [← this]
              exact Models.applyTaskUpdate_status t0 _ now "succeed" rfl
            · exact ⟨t2, h2, hterm⟩
        | failed er =>
            rw [pollPhase_cons_failed env now db tid rest t0 er hget hk
              hpoll]
            simp only
            have hup : Models.get_video_task
                (Models.update_video_task db tid
                  { status := some "failed" } now) tid =
                some (Models.applyTaskUpdate t0
                  { status := some "failed" } now) := by
              rw [Models.get_update_video_task, hget]
              simp [hid, hideq]
            rcases pollPhase_get_some env now rest _ tid _ hup with
              ⟨t2, h2, _⟩
            rcases pollPhase_get env now rest _ tid t2 h2 with hin | hterm
            · refine ⟨t2, h2, Or.inr ?_⟩
              rw [hup] at hin
              have := Option.some.inj hin
              rw [← this]
              exact Models.applyTaskUpdate_status t0 _ now "failed" rfl
            · exact ⟨t2, h2, hterm⟩
      · cases hget2 : Models.get_video_task db hd with
        | none =>
            rw [pollPhase_cons_none env now db hd rest hget2]
            exact ih db tid t0 hmemrest hget hk
        | some task =>
            by_cases hk2 : task.klingai_task_id = ""
            · rw [pollPhase_cons_skip env now db hd rest task hget2 hk2]
              exact ih db tid t0 hmemrest hget hk
            · cases hpoll : Kling.poll_task_until_done
                  (env.poll task.klingai_task_id)
                  Config.KLINGAI_TASK_TIMEOUT with
              | succeed url =>
                  rw [pollPhase_cons_succeed env now db hd rest task url
                    hget2 hk2 hpoll]
                  simp only
                  have hup : Models.get_video_task
                      (Models.update_video_task db hd
                        { status := some "succeed", video_url := some url }
                        now) tid =
                      some (if (t0.id == hd) = true then
                        Models.applyTaskUpdate t0
                          { status := some "succeed",
                            video_url := some url } now else t0) := by
                    rw [Models.get_update_video_task, hget]
                    rfl
                  by_cases hid2 : (t0.id == hd) = true
                  · rw [if_pos hid2] at hup
                    refine ih _ tid _ hmemrest hup ?_
                    rw [Models.applyTaskUpdate_klingai]
                    exact hk
                  · rw [if_neg hid2] at hup
                    exact ih _ tid t0 hmemrest hup hk
              | failed er =>
                  rw [pollPhase_cons_failed env now db hd rest task er
                    hget2 hk2 hpoll]
                  simp only
                  have hup : Models.get_video_task
                      (Models.update_video_task db hd
                        { status := some "failed" } now) tid =
                      some (if (t0.id == hd) = true then
                        Models.applyTaskUpdate t0
                          { status := some "failed" } now else t0) := by
                    rw [Models.get_update_video_task, hget]
                    rfl
                  by_cases hid2 : (t0.id == hd) = true
                  · rw [if_pos hid2] at hup
                    refine ih _ tid _ hmemrest hup ?_
                    rw [Models.applyTaskUpdate_klingai]
                    exact hk
                  · rw [if_neg hid2] at hup
                    exact ih _ tid t0 hmemrest hup hk

end Pipeline

/-- C4: the poll loop terminates with the claimed behaviour.  If the
status feed is non-terminal (including transient error responses) up to
attempt k and terminal at attempt k, and attempt k still falls inside
the timeout budget, the loop returns that terminal outcome — transient
errors before k do not terminate polling; if no terminal status ever
arrives, the loop returns failed with reason Timeout once the budget is
spent; and the per-run poll phase visits every created job: each id in
the list whose task exists and has a remote handle ends with a terminal
status (succeed or failed), so handling advances past every job instead
of blocking. -/
theorem c4_poll_loop_terminates :
    (∀ (f : Nat → Kling.PollStatus) (timeout k : Nat),
      Config.KLINGAI_POLLING_INTERVAL * k < timeout →
      (∀ j, j < k → Kling.isTerminal (f j) = false) →
      (∀ u, f k = .succeed u →
        Kling.poll_task_until_done f timeout = .succeed u) ∧
      (∀ er, f k = .failed er →
        Kling.poll_task_until_done f timeout = .failed er)) ∧
    (∀ (f : Nat → Kling.PollStatus) (timeout : Nat),
      (∀ j, Kling.isTerminal (f j) = false) →
      Kling.poll_task_until_done f timeout = .failed "Timeout") ∧
    (∀ (env : Pipeline.Env) (now : Tm.UtcTime) (ids : List Nat)
      (db : Models.DB) (tid : Nat) (t0 : Models.TaskRow),
      tid ∈ ids → Models.get_video_task db tid = some t0 →
      t0.klingai_task_id ≠ "" →
      ∃ t, Models.get_video_task
          (Pipeline.pollPhase env now db ids).db tid = some t ∧
        (t.status = "succeed" ∨ t.status = "failed")) := by
  refine ⟨?_, ?_, ?_⟩
  · intro f timeout k hk hbefore
    exact Kling.poll_first_terminal f timeout k hk hbefore
  · intro f timeout hf
    exact Kling.poll_timeout f timeout hf
  · intro env now ids db tid t0 hmem hget hk
    exact Pipeline.pollPhase_processes env now ids db tid t0 hmem hget hk

/-- C4 witness: a feed that errors transiently on attempt 0 and succeeds
on attempt 1 returns the success; a feed that never turns terminal times
out with reason Timeout; and the poll phase over the concrete database
leaves the polled job in a terminal status. -/
theorem c4_witness :
    Kling.poll_task_until_done
        (fun k => if k = 1 then Kling.PollStatus.succeed "u"
          else Kling.PollStatus.error "net")
        Config.KLINGAI_TASK_TIMEOUT = .succeed "u" ∧
    Kling.poll_task_until_done (fun _ => Kling.PollStatus.other "processing")
        Config.KLINGAI_TASK_TIMEOUT = .failed "Timeout" ∧
    (∃ t, Models.get_video_task
        (Pipeline.pollPhase Examples.exEnvPoll Examples.exQuery
          Examples.exDbTask [1]).db 1 = some t ∧
      (t.status = "succeed" ∨ t.status = "failed")) :=
  ⟨(c4_poll_loop_terminates.1
      (fun k => if k = 1 then Kling.PollStatus.succeed "u"
        else Kling.PollStatus.error "net")
      Config.KLINGAI_TASK_TIMEOUT 1 (by decide)
      (by
        intro j hj
        have hj0 : j = 0 := by omega
        subst hj0
        decide)).1 "u" rfl,
   c4_poll_loop_terminates.2.1 (fun _ => Kling.PollStatus.other "processing")
     Config.KLINGAI_TASK_TIMEOUT (fun j => rfl),
   c4_poll_loop_terminates.2.2 Examples.exEnvPoll Examples.exQuery [1]
     Examples.exDbTask 1 Examples.exSubmittedRow (by decide) (by decide)
     (by decide)⟩

namespace Pipeline

open Stylist Gateway

theorem processPrompts_all_fail (env : Env) (now : Tm.UtcTime)
    (product : FetchedProduct) (pid : Nat) :
    ∀ (ps : List PromptData) (db : Models.DB),
      (∀ pd ∈ ps, ∀ img,
        ∃ e, env.submit img (pd.prompt.getD "") = Except.error e) →
      processPrompts env now product pid db ps = (db, []) := by
  intro ps
  induction ps with
  | nil => intro db _; rfl
  | cons pd rest ih =>
      intro db h
      rw [processPrompts]
      by_cases hpt : pd.prompt.getD "" = ""
      · rw [if_pos hpt]
        exact ih db (fun q hq => h q (List.mem_cons_of_mem pd hq))
      · rw [if_neg hpt]
        rcases h pd (List.mem_cons_self pd rest) product.image_url with
          ⟨e, he⟩
        rw [he]
        exact ih db (fun q hq => h q (List.mem_cons_of_mem pd hq))

theorem processItem_all_fail (env : Env) (now : Tm.UtcTime)
    (ap : List FetchedProduct) (db : Models.DB) (X : ScoredEntry)
    (h : ∀ pd ∈ env.prompts X.cscart_id, ∀ img,
      ∃ e, env.submit img (pd.prompt.getD "") = Except.error e) :
    processItem env now ap db X = (db, []) := by
  rw [processItem]
  cases hf : ap.find? (fun p => p.cscart_id == X.cscart_id) with
  | none => rfl
  | some product =>
      dsimp only
      by_cases hv : Models.product_has_video_today db X.cscart_id now
      · rw [if_pos hv]
      · rw [if_neg hv]
        cases hg : Models.get_product_by_cscart_id db X.cscart_id with
        | none => rfl
        | some dbp =>
            dsimp only
            exact processPrompts_all_fail env now product dbp.id
              (env.prompts X.cscart_id) db h

theorem fanOut_append (env : Env) (now : Tm.UtcTime)
    (ap : List FetchedProduct) :
    ∀ (l1 l2 : List ScoredEntry) (db : Models.DB),
      fanOut env now ap db (l1 ++ l2) =
        ((fanOut env now ap (fanOut env now ap db l1).1 l2).1,
         (fanOut env now ap db l1).2 ++
           (fanOut env now ap (fanOut env now ap db l1).1 l2).2) := by
  intro l1
  induction l1 with
  | nil => intro l2 db; simp [fanOut]
  | cons x xs ih =>
      intro l2 db
      rw [List.cons_append, fanOut, fanOut, ih]
      simp [List.append_assoc]

end Pipeline

/-- C8: a failure of every render submission for one selected item X
(for example a non-retryable rejection) leaves the database untouched by
X and contributes zero jobs, and the whole fan-out over the other items
is exactly what it would have been without X — sibling submissions are
not aborted and the loop runs to completion over all items. -/
theorem c8_failed_submission_skipped_siblings_intact :
    ∀ (env : Pipeline.Env) (now : Tm.UtcTime)
      (ap : List Gateway.FetchedProduct) (db : Models.DB)
      (pre post : List Stylist.ScoredEntry) (X : Stylist.ScoredEntry),
      (∀ pd ∈ env.prompts X.cscart_id, ∀ img,
        ∃ e, env.submit img (pd.prompt.getD "") = Except.error e) →
      (∀ db2, Pipeline.processItem env now ap db2 X = (db2, [])) ∧
      Pipeline.fanOut env now ap db (pre ++ X :: post) =
        Pipeline.fanOut env now ap db (pre ++ post) := by
  intro env now ap db pre post X h
  have hitem : ∀ db2, Pipeline.processItem env now ap db2 X = (db2, []) :=
    fun db2 => Pipeline.processItem_all_fail env now ap db2 X h
  refine ⟨hitem, ?_⟩
  rw [Pipeline.fanOut_append env now ap pre (X :: post) db,
    Pipeline.fanOut_append env now ap pre post db]
  have hcons : ∀ db2, Pipeline.fanOut env now ap db2 (X :: post) =
      Pipeline.fanOut env now ap db2 post := by
    intro db2
    rw [Pipeline.fanOut, hitem db2]
    simp
  rw [hcons]

/-- C8 witness: in a concrete environment whose render service rejects
every instruction of item a and accepts those of item c, item a
contributes nothing and the three-item fan-out equals the fan-out
without item a. -/
theorem c8_witness :
    Pipeline.processItem Examples.exEnvReject Examples.exQuery
        (Examples.exRecent ++ Examples.exPopular) Examples.exDbProduct
        Examples.exSelA = (Examples.exDbProduct, []) ∧
    Pipeline.fanOut Examples.exEnvReject Examples.exQuery
        (Examples.exRecent ++ Examples.exPopular) Examples.exDbProduct
        ([] ++ Examples.exSelA :: [Examples.exSelC]) =
      Pipeline.fanOut Examples.exEnvReject Examples.exQuery
        (Examples.exRecent ++ Examples.exPopular) Examples.exDbProduct
        ([] ++ [Examples.exSelC]) := by
  have hfail : ∀ pd ∈ Examples.exEnvReject.prompts Examples.exSelA.cscart_id,
      ∀ img, ∃ e, Examples.exEnvReject.submit img (pd.prompt.getD "") =
        Except.error e := by
    intro pd hpd img
    have hpd2 : pd = { ptype := some "detail", prompt := some "bad" } := by
      simpa [Examples.exEnvReject, Examples.exSelA] using hpd
    subst hpd2
    exact ⟨"Rejected", rfl⟩
  exact ⟨(c8_failed_submission_skipped_siblings_intact Examples.exEnvReject
      Examples.exQuery (Examples.exRecent ++ Examples.exPopular)
      Examples.exDbProduct [] [Examples.exSelC] Examples.exSelA hfail).1
      Examples.exDbProduct,
    (c8_failed_submission_skipped_siblings_intact Examples.exEnvReject
      Examples.exQuery (Examples.exRecent ++ Examples.exPopular)
      Examples.exDbProduct [] [Examples.exSelC] Examples.exSelA hfail).2⟩

namespace Models

theorem update_video_task_sessions (db : DB) (tid : Nat) (u : TaskUpdate)
    (now : Tm.UtcTime) :
    (update_video_task db tid u now).sessions = db.sessions := rfl

theorem create_video_task_sessions (db : DB) (pid : Nat)
    (k p pt : String) (now : Tm.UtcTime) :
    ((create_video_task db pid k p pt now).1).sessions = db.sessions := rfl

theorem upsert_product_sessions (db : DB) (cid n : String)
    (c i : Option String) (pr : Option Int) (v : Option String)
    (sc : Int) :
    ((upsert_product db cid n c i pr v sc).1).sessions = db.sessions := by
  rw [upsert_product]
  cases db.products.find? (fun p => p.cscart_id == cid) <;> rfl

theorem update_session_sessions_len (db : DB) (sid : Nat)
    (u : SessionUpdate) :
    (update_session db sid u).sessions.length = db.sessions.length := by
  simp [update_session]

theorem update_session_tasks (db : DB) (sid : Nat) (u : SessionUpdate) :
    (update_session db sid u).video_tasks = db.video_tasks := rfl

theorem create_session_sessions_len (db : DB) :
    ((create_session db).1).sessions.length = db.sessions.length + 1 := by
  simp [create_session]

theorem create_session_tasks (db : DB) :
    ((create_session db).1).video_tasks = db.video_tasks := rfl

end Models

namespace Pipeline

open Stylist Gateway

theorem processPrompts_sessions (env : Env) (now : Tm.UtcTime)
    (product : FetchedProduct) (pid : Nat) :
    ∀ (ps : List PromptData) (db : Models.DB),
      (processPrompts env now product pid db ps).1.sessions =
        db.sessions := by
  intro ps
  induction ps with
  | nil => intro db; rfl
  | cons pd rest ih =>
      intro db
      rw [processPrompts]
      by_cases hpt : pd.prompt.getD "" = ""
      · rw [if_pos hpt]
        exact ih db
      · rw [if_neg hpt]
        cases hs : env.submit product.image_url (pd.prompt.getD "") with
        | error e => exact ih db
        | ok kid =>
            dsimp only
            rw [ih]
            exact Models.create_video_task_sessions db pid kid _ _ now

theorem processItem_sessions (env : Env) (now : Tm.UtcTime)
    (ap : List FetchedProduct) (db : Models.DB) (sel : ScoredEntry) :
    (processItem env now ap db sel).1.sessions = db.sessions := by
  rw [processItem]
  cases hf : ap.find? (fun p => p.cscart_id == sel.cscart_id) with
  | none => rfl
  | some product =>
      dsimp only
      by_cases hv : Models.product_has_video_today db sel.cscart_id now
      · rw [if_pos hv]
      · rw [if_neg hv]
        cases hg : Models.get_product_by_cscart_id db sel.cscart_id with
        | none => rfl
        | some dbp =>
            dsimp only
            exact processPrompts_sessions env now product dbp.id
              (env.prompts sel.cscart_id) db

theorem fanOut_sessions (env : Env) (now : Tm.UtcTime)
    (ap : List FetchedProduct) :
    ∀ (sels : List ScoredEntry) (db : Models.DB),
      (fanOut env now ap db sels).1.sessions = db.sessions := by
  intro sels
  induction sels with
  | nil => intro db; rfl
  | cons x xs ih =>
      intro db
      rw [fanOut]
      dsimp only
      rw [ih, processItem_sessions]

theorem persistScores_sessions (ap : List FetchedProduct) :
    ∀ (scored : List ScoredEntry) (db : Models.DB),
      (persistScores ap db scored).sessions = db.sessions := by
  intro scored
  induction scored with
  | nil => intro db; rfl
  | cons s rest ih =>
      intro db
      rw [persistScores]
      cases hf : ap.find? (fun p => p.cscart_id == s.cscart_id) with
      | none => exact ih db
      | some p =>
          dsimp only
          rw [ih, Models.upsert_product_sessions]

theorem pollPhase_sessions (env : Env) (now : Tm.UtcTime) :
    ∀ (ids : List Nat) (db : Models.DB),
      (pollPhase env now db ids).db.sessions = db.sessions := by
  intro ids
  induction ids with
  | nil => intro db; rfl
  | cons hd rest ih =>
      intro db
      cases hget : Models.get_video_task db hd with
      | none =>
          rw [pollPhase_cons_none env now db hd rest hget]
          exact ih db
      | some task =>
          by_cases hk : task.klingai_task_id = ""
          · rw [pollPhase_cons_skip env now db hd rest task hget hk]
            exact ih db
          · cases hpoll : Kling.poll_task_until_done
                (env.poll task.klingai_task_id)
                Config.KLINGAI_TASK_TIMEOUT with
            | succeed url =>
                rw [pollPhase_cons_succeed env now db hd rest task url hget
                  hk hpoll]
                dsimp only
                rw [ih, Models.update_video_task_sessions]
            | failed er =>
                rw [pollPhase_cons_failed env now db hd rest task er hget
                  hk hpoll]
                dsimp only
                rw [ih, Models.update_video_task_sessions]

theorem pollPhase_tasks_len (env : Env) (now : Tm.UtcTime) :
    ∀ (ids : List Nat) (db : Models.DB),
      (pollPhase env now db ids).db.video_tasks.length =
        db.video_tasks.length := by
  intro ids
  induction ids with
  | nil => intro db; rfl
  | cons hd rest ih =>
      intro db
      cases hget : Models.get_video_task db hd with
      | none =>
          rw [pollPhase_cons_none env now db hd rest hget]
          exact ih db
      | some task =>
          by_cases hk : task.klingai_task_id = ""
          · rw [pollPhase_cons_skip env now db hd rest task hget hk]
            exact ih db
          · cases hpoll : Kling.poll_task_until_done
                (env.poll task.klingai_task_id)
                Config.KLINGAI_TASK_TIMEOUT with
            | succeed url =>
                rw [pollPhase_cons_succeed env now db hd rest task url hget
                  hk hpoll]
                dsimp only
                rw [ih]
                simp [Models.update_video_task]
            | failed er =>
                rw [pollPhase_cons_failed env now db hd rest task er hget
                  hk hpoll]
                dsimp only
                rw [ih]
                simp [Models.update_video_task]

end Pipeline

/-- C9 amended: the scheduled invocation creates exactly one PipelineRun
row at invocation start — it exists for every environment, including an
empty fetch — and an empty deduplicated item set aborts that run with
the session marked failed (products_fetched 0), a single no-items report
and no task created or retried.  The manual invocation, however, creates
its single run row only after fetch and scoring succeed; on an empty
item set it aborts with a warning message, creating no run row at all
and recording no failed status — the original claim fails there. -/
theorem c9_run_row_scheduled_at_start_manual_after_fetch :
    (∀ (env : Pipeline.Env) (now : Tm.UtcTime) (db : Models.DB),
      (Sched.daily_generation_job env now db).db.sessions.length =
        db.sessions.length + 1) ∧
    (∀ (env : Pipeline.Env) (now : Tm.UtcTime) (db : Models.DB),
      Pipeline.dedupProducts (env.new_products ++ env.popular_products) =
        [] →
      (∃ s, Models.get_session (Sched.daily_generation_job env now db).db
          db.next_session_id = some s ∧ s.status = "failed" ∧
          s.products_fetched = 0) ∧
      (Sched.daily_generation_job env now db).events =
        [Pipeline.Event.started, Pipeline.Event.noItems] ∧
      (Sched.daily_generation_job env now db).db.video_tasks =
        db.video_tasks) ∧
    (∀ (env : Pipeline.Env) (now : Tm.UtcTime) (db : Models.DB)
      (scored : List Stylist.ScoredEntry),
      Pipeline.dedupProducts (env.new_products ++ env.popular_products) ≠
        [] →
      Stylist.select_and_score_products
        (Pipeline.dedupProducts (env.new_products ++ env.popular_products))
        env.curator = .ok scored →
      (Handlers.cmd_generate env now db).db.sessions.length =
        db.sessions.length + 1) ∧
    (∀ (env : Pipeline.Env) (now : Tm.UtcTime) (db : Models.DB),
      Pipeline.dedupProducts (env.new_products ++ env.popular_products) =
        [] →
      Handlers.cmd_generate env now db =
        { db := db, events := [Pipeline.Event.manualNoProducts] }) := by
  refine ⟨?_, ?_, ?_, ?_⟩
  · intro env now db
    simp only [Sched.daily_generation_job]
    split
    · simp [Models.update_session_sessions_len,
        Models.create_session_sessions_len]
    · split
      · simp [Models.update_session_sessions_len,
          Models.create_session_sessions_len]
      · split
        · simp [Models.update_session_sessions_len,
            Pipeline.fanOut_sessions, Pipeline.persistScores_sessions,
            Models.create_session_sessions_len]
        · simp [Models.update_session_sessions_len,
            Pipeline.pollPhase_sessions, Pipeline.fanOut_sessions,
            Pipeline.persistScores_sessions,
            Models.create_session_sessions_len]
  · intro env now db hded
    simp only [Sched.daily_generation_job, hded, List.isEmpty_nil,
      if_true, List.length_nil]
    refine ⟨?_, by trivial, by trivial⟩
    rw [Models.get_update_session, Models.get_update_session,
      Models.get_session_create]
    simp [Models.create_session, Models.applySessionUpdate]
  · intro env now db scored hne hok
    have hie : (Pipeline.dedupProducts
        (env.new_products ++ env.popular_products)).isEmpty = false := by
      cases hl : Pipeline.dedupProducts
          (env.new_products ++ env.popular_products) with
      | nil => exact absurd hl hne
      | cons a l => rfl
    simp only [Handlers.cmd_generate, hie, Bool.false_eq_true, if_false,
      hok]
    split
    · simp [Models.update_session_sessions_len,
        Pipeline.fanOut_sessions, Pipeline.persistScores_sessions,
        Models.create_session_sessions_len]
    · simp [Models.update_session_sessions_len,
        Pipeline.pollPhase_sessions, Pipeline.fanOut_sessions,
        Pipeline.persistScores_sessions,
        Models.create_session_sessions_len]
  · intro env now db hded
    simp only [Handlers.cmd_generate, hded, List.isEmpty_nil, if_true]

/-- C9 counterexample: a manual invocation over an empty catalog creates
no PipelineRun row at all (the claim requires exactly one, created at
invocation start before fetching) and records no failed run status —
only a warning message is sent. -/
theorem c9_counterexample_manual_empty_fetch_no_run_row :
    (Handlers.cmd_generate Examples.exEnvEmptyFetch Examples.exQuery
        Models.emptyDB).db.sessions = [] ∧
    (Handlers.cmd_generate Examples.exEnvEmptyFetch Examples.exQuery
        Models.emptyDB).events = [Pipeline.Event.manualNoProducts] :=
  ⟨rfl, rfl⟩

/-- C9 witness: the scheduled job on the empty-fetch environment still
creates its one session row, and the manual command with a successful
fetch and scoring creates exactly one. -/
theorem c9_witness :
    (Sched.daily_generation_job Examples.exEnvEmptyFetch Examples.exQuery
        Models.emptyDB).db.sessions.length =
      Models.emptyDB.sessions.length + 1 ∧
    (Sched.daily_generation_job Examples.exEnvEmptyFetch Examples.exQuery
        Models.emptyDB).events =
      [Pipeline.Event.started, Pipeline.Event.noItems] ∧
    (Handlers.cmd_generate Examples.exEnvReject Examples.exQuery
        Models.emptyDB).db.sessions.length =
      Models.emptyDB.sessions.length + 1 :=
  ⟨c9_run_row_scheduled_at_start_manual_after_fetch.1
      Examples.exEnvEmptyFetch Examples.exQuery Models.emptyDB,
   (c9_run_row_scheduled_at_start_manual_after_fetch.2.1
      Examples.exEnvEmptyFetch Examples.exQuery Models.emptyDB rfl).2.1,
   c9_run_row_scheduled_at_start_manual_after_fetch.2.2.1
      Examples.exEnvReject Examples.exQuery Models.emptyDB
      (Stylist.fallbackScored (Pipeline.dedupProducts
        (Examples.exEnvReject.new_products ++
          Examples.exEnvReject.popular_products)))
      (by decide) rfl⟩
